import Mathlib

/-!
Shallow embedding of the distributed token-bucket rate limiter of
trade-tariff-lambdas-authenticator.

Numbers: JavaScript numeric values are modelled as rationals.  Times are
wall-clock milliseconds.  A missing DynamoDB attribute, or one whose string
fails to parse as a number (Number(v) is NaN), is modelled as none.

The three limiters embedded here:
- the fully-atomic limiter (rateLimiterAtomicDynamoDb, the second document of
  src/src/responseHandler.js): synchronous Get + conditional Update;
- the hybrid V1 limiter (src/src/rateLimiterHybridMemoryDynamo.js): in-memory
  cache + unconditional fire-and-forget Update;
- the hybrid V2 limiter (src/src/rateLimiterHybridMemoryDynamoV2.js): in-memory
  cache + awaited background sync with a conditional Update.

Effects on the DynamoDB store are modelled by passing the outcome of each store
call as an explicit parameter (GetOutcome / UpdateOutcome) and by returning the
parameters of the Update call the code issues (UpdateCall).  Thrown JavaScript
errors are modelled with Except.
-/

namespace TariffAuth

/-- Raw DynamoDB item as read by the limiters: five numeric attributes, each
possibly missing or non-numeric (none). Mirrors the shape item?.field?.N fed
through Number(). -/
structure RawItem where
  tokens : Option ℚ
  lastRefill : Option ℚ
  refillRate : Option ℚ
  refillInterval : Option ℚ
  maxTokens : Option ℚ
  deriving DecidableEq, Repr

/-- The empty item, i.e. the JS object {} used for a new client. -/
def RawItem.empty : RawItem :=
  { tokens := none, lastRefill := none, refillRate := none,
    refillInterval := none, maxTokens := none }

/-- sanitizeNumber from the source (identical in all three limiter files):
Number(value) is NaN (modelled: none) gives the default; otherwise the value is
raised to minValue and then lowered to maxValue when those bounds are given. -/
def sanitizeNumber (value : Option ℚ) (defaultValue : ℚ)
    (minValue maxValue : Option ℚ) : ℚ :=
  match value with
  | none => defaultValue
  | some n =>
    let n1 := match minValue with
      | none => n
      | some m => if n < m then m else n
    match maxValue with
    | none => n1
    | some M => if M < n1 then M else n1

/-- Result of sanitizeItem: the five sanitized attributes plus the derived
refill computation, exactly the fields the source functions return. -/
structure SanitizedItem where
  tokens : ℚ
  lastRefill : ℚ
  refillRate : ℚ
  refillInterval : ℚ
  maxTokens : ℚ
  currentTime : ℚ
  timeDelta : ℚ
  refillAmount : ℚ
  potentialTokens : ℚ
  cappedTokens : ℚ
  cappedTokensFloored : ℚ
  deriving DecidableEq, Repr

/-- Common body of the three sanitizeItem functions.  The three source files
differ only in the default constants and in whether refillAmount is floored
(V1 and the fully-atomic limiter floor it, V2 keeps the float); both are passed
as parameters here and fixed in the per-file wrappers below.  now is the
Date.now() value captured at the top of sanitizeItem. -/
def sanitizeItemCore (defRate defInterval defMax : ℚ) (floorRefill : Bool)
    (item : RawItem) (now : ℚ) : SanitizedItem :=
  let hardMaxTokens : ℚ := 2500
  let hardMaxRefillRate : ℚ := 2500
  let maxTokens := sanitizeNumber item.maxTokens defMax (some 1) (some hardMaxTokens)
  let refillRate := sanitizeNumber item.refillRate defRate (some 1) (some hardMaxRefillRate)
  let refillInterval := sanitizeNumber item.refillInterval defInterval (some 1) none
  let lastRefill := sanitizeNumber item.lastRefill now (some 0) (some now)
  let tokens := sanitizeNumber item.tokens maxTokens (some 0) (some maxTokens)
  let timeDelta := max 0 (now - lastRefill)
  let refillAmountRaw := refillRate * timeDelta / (refillInterval * 1000)
  let refillAmount := if floorRefill then ((⌊refillAmountRaw⌋ : ℤ) : ℚ) else refillAmountRaw
  let potentialTokens := tokens + refillAmount
  let cappedTokens := min potentialTokens maxTokens
  { tokens := tokens, lastRefill := lastRefill, refillRate := refillRate,
    refillInterval := refillInterval, maxTokens := maxTokens, currentTime := now,
    timeDelta := timeDelta, refillAmount := refillAmount,
    potentialTokens := potentialTokens, cappedTokens := cappedTokens,
    cappedTokensFloored := ((⌊cappedTokens⌋ : ℤ) : ℚ) }

/-- sanitizeItem of rateLimiterHybridMemoryDynamo.js (hybrid V1): defaults
refillRate 300, interval 60, maxTokens 500; refillAmount floored. -/
def sanitizeItemV1 (item : RawItem) (now : ℚ) : SanitizedItem :=
  sanitizeItemCore 300 60 500 true item now

/-- sanitizeItem of rateLimiterHybridMemoryDynamoV2.js (hybrid V2): defaults
refillRate 300, interval 60, maxTokens 500; refillAmount kept fractional. -/
def sanitizeItemV2 (item : RawItem) (now : ℚ) : SanitizedItem :=
  sanitizeItemCore 300 60 500 false item now

/-- sanitizeItem of the fully-atomic limiter (second document of
responseHandler.js): defaults refillRate 750, interval 60, maxTokens 750;
refillAmount floored. -/
def sanitizeItemAtomic (item : RawItem) (now : ℚ) : SanitizedItem :=
  sanitizeItemCore 750 60 750 true item now

/-- Serialization of a sanitized bucket back to a raw item (the five persisted
attributes present), used to state idempotence of sanitization. -/
def SanitizedItem.toRaw (s : SanitizedItem) : RawItem :=
  { tokens := some s.tokens, lastRefill := some s.lastRefill,
    refillRate := some s.refillRate, refillInterval := some s.refillInterval,
    maxTokens := some s.maxTokens }

/-- Memory-cache entry of the hybrid limiters.  The scratch fields the JS code
stores on the cached object (potentialTokens, cappedTokens, cappedTokensFloored)
are recomputed before every read in the source, so only the persistent fields
are modelled. -/
structure CachedItem where
  tokens : ℚ
  lastRefill : ℚ
  refillRate : ℚ
  refillInterval : ℚ
  maxTokens : ℚ
  lastAccess : ℚ
  deriving DecidableEq, Repr

/-- Seeding a cache entry from a sanitized item ({...sanitized, lastAccess}). -/
def toCachedItem (s : SanitizedItem) (lastAccess : ℚ) : CachedItem :=
  { tokens := s.tokens, lastRefill := s.lastRefill, refillRate := s.refillRate,
    refillInterval := s.refillInterval, maxTokens := s.maxTokens,
    lastAccess := lastAccess }

/-- The decision object returned by applyRateLimit in all three limiters. -/
structure Decision where
  allowed : Bool
  rateLimitRemaining : ℚ
  rateLimitLimit : ℚ
  rateLimitReset : ℚ
  collision : Bool
  deriving DecidableEq, Repr

/-- The rateLimitReset computation, duplicated verbatim at every decision site
in the three limiter files: ceil((maxTokens - remaining) * refillInterval /
refillRate) when remaining < maxTokens, else 0. -/
def computeReset (maxTokens remaining refillInterval refillRate : ℚ) : ℚ :=
  if remaining < maxTokens then
    ((⌈(maxTokens - remaining) * refillInterval / refillRate⌉ : ℤ) : ℚ)
  else 0

/-- Outcome of a GetItem call on the DynamoDB client. ok none is a response
with no Item (new client); resourceNotFound models a
ResourceNotFoundException whose message does or does not mention the table;
transportError any other thrown error. -/
inductive GetOutcome where
  | ok (item : Option RawItem)
  | resourceNotFound (mentionsTable : Bool)
  | transportError
  deriving DecidableEq, Repr

/-- Outcome of an UpdateItem call on the DynamoDB client. -/
inductive UpdateOutcome where
  | ok
  | conditionalCheckFailed
  | transportError
  deriving DecidableEq, Repr

/-- Errors a limiter can throw to its caller. -/
inductive StoreError where
  | tableNotFound
  | getTransport
  | updateTransport
  deriving DecidableEq, Repr

/-- Decidable equality for Except results, used to evaluate the embedded
limiters at concrete inputs. -/
instance {e a : Type} [DecidableEq e] [DecidableEq a] : DecidableEq (Except e a) :=
  fun x y =>
  match x, y with
  | .error v, .error w =>
    if h : v = w then isTrue (by rw [h]) else isFalse (by intro hc; cases hc; exact h rfl)
  | .ok v, .ok w =>
    if h : v = w then isTrue (by rw [h]) else isFalse (by intro hc; cases hc; exact h rfl)
  | .error _, .ok _ => isFalse (by intro hc; cases hc)
  | .ok _, .error _ => isFalse (by intro hc; cases hc)

/-- The shared GetItem error handling of all three limiter files: a missing
Item yields the empty item; ResourceNotFoundException naming the table is
rethrown; ResourceNotFoundException not naming the table is treated as a new
client; every other error is logged and rethrown. -/
def getItem (g : GetOutcome) : Except StoreError RawItem :=
  match g with
  | .ok none => .ok RawItem.empty
  | .ok (some it) => .ok it
  | .resourceNotFound true => .error .tableNotFound
  | .resourceNotFound false => .ok RawItem.empty
  | .transportError => .error .getTransport

/-- Condition expressions attached to conditional UpdateItem calls, as data.
lastRefillEq is the fully-atomic limiter's guard; v2Consume and v2Deny are the
two guards built by V2's syncToDynamo, carrying the bound attribute values. -/
inductive CondExpr where
  | lastRefillEq (oldLastRefill : ℚ)
  | v2Consume (expectedTokens expectedLastRefill : ℚ)
  | v2Deny (oldTokens expectedLastRefill : ℚ)
  deriving DecidableEq, Repr

/-- DynamoDB semantics of the embedded condition expressions, evaluated against
the stored item (attribute_not_exists is none). -/
def CondExpr.eval : CondExpr → RawItem → Bool
  | .lastRefillEq old, st =>
      decide (st.lastRefill = none ∨ st.lastRefill = some old)
  | .v2Consume expTok expLR, st =>
      (decide (st.tokens = none ∨ ∃ t, st.tokens = some t ∧ expTok ≤ t)) &&
      (decide (st.lastRefill = none ∨ ∃ l, st.lastRefill = some l ∧ l ≤ expLR))
  | .v2Deny oldTok expLR, st =>
      (decide (st.tokens = none ∨ st.tokens = some oldTok)) &&
      (decide (st.lastRefill = none ∨ st.lastRefill = some expLR))

/-- The guard the specification claims for every conditional update:
lastRefill is absent OR lastRefill equals the snapshot value. -/
def specClaimedGuard (snapshotLastRefill : ℚ) (st : RawItem) : Bool :=
  decide (st.lastRefill = none ∨ st.lastRefill = some snapshotLastRefill)

/-- Parameters of an UpdateItem call as issued by the limiters: the five SET
values and the optional condition expression (none for V1's unconditional
update). -/
structure UpdateCall where
  newTokens : ℚ
  currentTime : ℚ
  refillRate : ℚ
  refillInterval : ℚ
  maxTokens : ℚ
  cond : Option CondExpr
  deriving DecidableEq, Repr

/-- The rateLimitResult object as first built by the fully-atomic limiter
(responseHandler.js second document, lines 151-166): allowed iff the floored
capped count is at least 1, remaining pre-consumption, reset from the
pre-consumption remaining. -/
def atomicBaseDecision (item : SanitizedItem) : Decision :=
  { allowed := decide (1 ≤ item.cappedTokensFloored),
    rateLimitRemaining := item.cappedTokensFloored,
    rateLimitLimit := item.maxTokens,
    rateLimitReset := computeReset item.maxTokens item.cappedTokensFloored
      item.refillInterval item.refillRate,
    collision := false }

/-- The rateLimitResult after the allowed-branch mutation (lines 168-180):
remaining becomes newTokens = cappedTokensFloored - 1 and reset is recomputed
from it. -/
def atomicAllowedDecision (item : SanitizedItem) : Decision :=
  { atomicBaseDecision item with
    rateLimitRemaining := item.cappedTokensFloored - 1
    rateLimitReset := computeReset item.maxTokens (item.cappedTokensFloored - 1)
      item.refillInterval item.refillRate }

/-- The UpdateItem call issued by the fully-atomic limiter (lines 185-207):
SET all five fields, guarded by attribute_not_exists(lastRefill) OR
lastRefill = :oldLastRefill. -/
def atomicUpdateCall (item : SanitizedItem) : UpdateCall :=
  { newTokens := item.cappedTokensFloored - 1, currentTime := item.currentTime,
    refillRate := item.refillRate, refillInterval := item.refillInterval,
    maxTokens := item.maxTokens,
    cond := some (.lastRefillEq item.lastRefill) }

/-- applyRateLimit of the fully-atomic limiter (second document of
responseHandler.js, lines 124-222): awaited Get, sanitize, local decision; on
deny return without writing; on allow issue the conditional Update guarded by
lastRefill and react to its outcome (success; condition failure is a business
outcome with allowed = false and collision = true; transport error rethrown). -/
def atomicApplyRateLimit (g : GetOutcome) (u : UpdateOutcome) (now : ℚ) :
    Except StoreError (Decision × Option UpdateCall) :=
  match getItem g with
  | .error e => .error e
  | .ok raw =>
    let item := sanitizeItemAtomic raw now
    if (atomicBaseDecision item).allowed then
      match u with
      | .ok => .ok ({ atomicAllowedDecision item with allowed := true },
          some (atomicUpdateCall item))
      | .conditionalCheckFailed =>
          .ok ({ atomicAllowedDecision item with allowed := false, collision := true },
            some (atomicUpdateCall item))
      | .transportError => .error .updateTransport
    else
      .ok (atomicBaseDecision item, none)

/-- timeDelta of the hybrid refill step: max(0, now - lastRefill). -/
def hybridTimeDelta (c : CachedItem) (now : ℚ) : ℚ :=
  max 0 (now - c.lastRefill)

/-- V1 in-memory refill amount (floored, rateLimiterHybridMemoryDynamo.js
lines 145-148). -/
def v1RefillAmount (c : CachedItem) (now : ℚ) : ℚ :=
  ((⌊c.refillRate * hybridTimeDelta c now / (c.refillInterval * 1000)⌋ : ℤ) : ℚ)

/-- V1 capped token count after the in-memory refill. -/
def v1Capped (c : CachedItem) (now : ℚ) : ℚ :=
  min (c.tokens + v1RefillAmount c now) c.maxTokens

/-- V2 in-memory refill amount (float precision,
rateLimiterHybridMemoryDynamoV2.js lines 150-152). -/
def v2RefillAmount (c : CachedItem) (now : ℚ) : ℚ :=
  c.refillRate * hybridTimeDelta c now / (c.refillInterval * 1000)

/-- V2 capped token count after the in-memory refill. -/
def v2Capped (c : CachedItem) (now : ℚ) : ℚ :=
  min (c.tokens + v2RefillAmount c now) c.maxTokens

/-- Cache read/refresh step shared by both hybrid limiters: fetch, sanitize and
seed the cache entry when the entry is missing or older than one second,
otherwise use the cached entry as is.  The sanitizer of the calling file is
passed in. -/
def hybridResolve (san : RawItem → ℚ → SanitizedItem) (cache : Option CachedItem)
    (g : GetOutcome) (now : ℚ) : Except StoreError CachedItem :=
  match cache with
  | some c =>
    if 1000 < now - c.lastAccess then
      (getItem g).map fun raw => toCachedItem (san raw now) now
    else .ok c
  | none => (getItem g).map fun raw => toCachedItem (san raw now) now

/-- Cache read/refresh of hybrid V1 (rateLimiterHybridMemoryDynamo.js lines
112-142). -/
def v1Resolve (cache : Option CachedItem) (g : GetOutcome) (now : ℚ) :
    Except StoreError CachedItem :=
  hybridResolve sanitizeItemV1 cache g now

/-- Cache read/refresh of hybrid V2 (rateLimiterHybridMemoryDynamoV2.js lines
121-147). -/
def v2Resolve (cache : Option CachedItem) (g : GetOutcome) (now : ℚ) :
    Except StoreError CachedItem :=
  hybridResolve sanitizeItemV2 cache g now

/-- The rateLimitResult object as first built by both hybrid limiters from the
refilled cache entry (V1 lines 156-171, V2 lines 161-176): allowed iff the
floored capped count flo is at least 1, remaining pre-consumption, reset from
the pre-consumption remaining. -/
def hybridBaseDecision (c : CachedItem) (flo : ℚ) : Decision :=
  { allowed := decide (1 ≤ flo), rateLimitRemaining := flo,
    rateLimitLimit := c.maxTokens,
    rateLimitReset := computeReset c.maxTokens flo c.refillInterval c.refillRate,
    collision := false }

/-- The V1 decision after the allowed-branch mutation (lines 178-193):
remaining becomes newTokens = cappedTokensFloored - 1 and reset is recomputed
from it; allowed is re-affirmed true at line 221. -/
def v1AllowedDecision (c : CachedItem) (now : ℚ) : Decision :=
  { hybridBaseDecision c ((⌊v1Capped c now⌋ : ℤ) : ℚ) with
    allowed := true
    rateLimitRemaining := ((⌊v1Capped c now⌋ : ℤ) : ℚ) - 1
    rateLimitReset := computeReset c.maxTokens (((⌊v1Capped c now⌋ : ℤ) : ℚ) - 1)
      c.refillInterval c.refillRate }

/-- The unconditional UpdateItem call issued by V1 on the allow path (lines
197-215). -/
def v1UpdateCall (c : CachedItem) (now : ℚ) : UpdateCall :=
  { newTokens := ((⌊v1Capped c now⌋ : ℤ) : ℚ) - 1, currentTime := now,
    refillRate := c.refillRate, refillInterval := c.refillInterval,
    maxTokens := c.maxTokens, cond := none }

/-- applyRateLimit of hybrid V1 (rateLimiterHybridMemoryDynamo.js lines
107-223): integer-precision in-memory refill and decision; on deny return
immediately; on allow decrement the cache, recompute the reported fields and
issue an unconditional fire-and-forget Update whose outcome is never observed
by the caller.  Returns (decision, cache entry after the call, update call). -/
def v1ApplyRateLimit (cache : Option CachedItem) (g : GetOutcome) (now : ℚ) :
    Except StoreError (Decision × CachedItem × Option UpdateCall) :=
  match v1Resolve cache g now with
  | .error e => .error e
  | .ok c =>
    if (hybridBaseDecision c ((⌊v1Capped c now⌋ : ℤ) : ℚ)).allowed then
      .ok (v1AllowedDecision c now,
        { c with tokens := ((⌊v1Capped c now⌋ : ℤ) : ℚ) - 1,
                 lastRefill := now, lastAccess := now },
        some (v1UpdateCall c now))
    else
      .ok (hybridBaseDecision c ((⌊v1Capped c now⌋ : ℤ) : ℚ), c, none)

/-- The V2 decision after the consume-branch mutation (lines 183-198):
remaining becomes floor(newTokens) with newTokens = cappedTokens - 1 (float)
and reset is recomputed from it. -/
def v2ConsumedDecision (c : CachedItem) (now : ℚ) : Decision :=
  { hybridBaseDecision c ((⌊v2Capped c now⌋ : ℤ) : ℚ) with
    rateLimitRemaining := ((⌊v2Capped c now - 1⌋ : ℤ) : ℚ)
    rateLimitReset := computeReset c.maxTokens ((⌊v2Capped c now - 1⌋ : ℤ) : ℚ)
      c.refillInterval c.refillRate }

/-- The V2 cache entry after the consume-branch mutation (lines 183-187):
tokens becomes the float newTokens = cappedTokens - 1 and both lastRefill and
lastAccess are set to now. -/
def v2ConsumedCache (c : CachedItem) (now : ℚ) : CachedItem :=
  { c with tokens := v2Capped c now - 1, lastAccess := now, lastRefill := now }

/-- The in-memory decision phase of hybrid V2
(rateLimiterHybridMemoryDynamoV2.js lines 149-198): fractional refill,
decision fields, and on consumption the cache decrement (float newTokens =
cappedTokens - 1) with recomputed remaining/reset.  Returns
(decision, cache entry, isConsume). -/
def v2Decide (c : CachedItem) (now : ℚ) : Decision × CachedItem × Bool :=
  if (hybridBaseDecision c ((⌊v2Capped c now⌋ : ℤ) : ℚ)).allowed then
    (v2ConsumedDecision c now, v2ConsumedCache c now, true)
  else (hybridBaseDecision c ((⌊v2Capped c now⌋ : ℤ) : ℚ), c, false)

/-- syncToDynamo of hybrid V2 as invoked with retries = 0 (lines 203-266 and
call site 268-270): recompute the refill at sync time, re-check consumption,
pick the consume/deny condition expression, issue the conditional Update; on
condition failure set the collision flag, then refresh the cache from a second
Get (whose own failure is swallowed by the outer catch); transport errors are
logged and swallowed.  Returns (cache entry after the sync, collision flag,
issued update call). -/
def v2Sync (c : CachedItem) (isConsume : Bool) (now2 : ℚ) (u : UpdateOutcome)
    (g2 : GetOutcome) : CachedItem × Bool × UpdateCall :=
  let timeDelta2 := max 0 (now2 - c.lastRefill)
  let refill2 := c.refillRate * timeDelta2 / (c.refillInterval * 1000)
  let oldTokens := c.tokens
  let capped2 := min (oldTokens + refill2) c.maxTokens
  let isConsume2 := decide (1 ≤ capped2) && isConsume
  let newTokens2 := if isConsume2 then capped2 - 1 else capped2
  let cond := if isConsume2 then CondExpr.v2Consume capped2 c.lastRefill
              else CondExpr.v2Deny oldTokens c.lastRefill
  let call : UpdateCall :=
    { newTokens := newTokens2, currentTime := now2, refillRate := c.refillRate,
      refillInterval := c.refillInterval, maxTokens := c.maxTokens,
      cond := some cond }
  match u with
  | .ok => (c, false, call)
  | .transportError => (c, false, call)
  | .conditionalCheckFailed =>
    match g2 with
    | .ok refreshed =>
        (toCachedItem (sanitizeItemV2 (refreshed.getD RawItem.empty) now2) now2,
         true, call)
    | _ => (c, true, call)

/-- applyRateLimit of hybrid V2 (rateLimiterHybridMemoryDynamoV2.js lines
110-274): cache resolve, in-memory decision, then - when a refill elapsed or a
token was consumed - the awaited background sync, whose collision flag lands on
the returned decision.  now is Date.now() at entry, now2 is Date.now() inside
syncToDynamo; g1/g2 the outcomes of the initial and the collision-refresh Get,
u the outcome of the conditional Update. -/
def v2ApplyRateLimit (cache : Option CachedItem) (g1 : GetOutcome)
    (now now2 : ℚ) (u : UpdateOutcome) (g2 : GetOutcome) :
    Except StoreError (Decision × CachedItem × Option UpdateCall) :=
  match v2Resolve cache g1 now with
  | .error e => .error e
  | .ok c =>
    let timeDelta := hybridTimeDelta c now
    let r := v2Decide c now
    let d1 := r.1
    let c1 := r.2.1
    let isConsume := r.2.2
    if decide (0 < timeDelta) || isConsume then
      let s := v2Sync c1 isConsume now2 u g2
      .ok ({ d1 with collision := s.2.1 }, s.1, some s.2.2)
    else
      .ok (d1, c1, none)

/-- Well-formedness of a memory-cache entry: the bounds sanitization
establishes on the five persistent fields. -/
def CachedItem.WF (c : CachedItem) : Prop :=
  1 ≤ c.refillRate ∧ c.refillRate ≤ 2500 ∧ 1 ≤ c.refillInterval ∧
  1 ≤ c.maxTokens ∧ c.maxTokens ≤ 2500 ∧ 0 ≤ c.tokens ∧ c.tokens ≤ c.maxTokens

/-- The memory-cache invariant of claim C10: the cached token count stays
between 0 and the cached maxTokens. -/
def CachedItem.TokensInv (c : CachedItem) : Prop :=
  0 ≤ c.tokens ∧ c.tokens ≤ c.maxTokens

/-- Hybrid V1 with the eventual outcome of its fire-and-forget Update as an
explicit argument.  The source launches the write and attaches only a logging
.catch (lines 217-219), so the outcome is never observed by applyRateLimit;
accordingly the embedding ignores it. -/
def v1ApplyRateLimitWithOutcome (cache : Option CachedItem) (g : GetOutcome)
    (now : ℚ) (u : UpdateOutcome) :
    Except StoreError (Decision × CachedItem × Option UpdateCall) :=
  match u with
  | _ => v1ApplyRateLimit cache g now

/-! Projection equations for sanitizeItemCore. -/

theorem sanitizeItemCore_maxTokens (dR dI dM : ℚ) (fR : Bool) (item : RawItem) (now : ℚ) :
    (sanitizeItemCore dR dI dM fR item now).maxTokens
      = sanitizeNumber item.maxTokens dM (some 1) (some 2500) := rfl

theorem sanitizeItemCore_refillRate (dR dI dM : ℚ) (fR : Bool) (item : RawItem) (now : ℚ) :
    (sanitizeItemCore dR dI dM fR item now).refillRate
      = sanitizeNumber item.refillRate dR (some 1) (some 2500) := rfl

theorem sanitizeItemCore_refillInterval (dR dI dM : ℚ) (fR : Bool) (item : RawItem) (now : ℚ) :
    (sanitizeItemCore dR dI dM fR item now).refillInterval
      = sanitizeNumber item.refillInterval dI (some 1) none := rfl

theorem sanitizeItemCore_lastRefill (dR dI dM : ℚ) (fR : Bool) (item : RawItem) (now : ℚ) :
    (sanitizeItemCore dR dI dM fR item now).lastRefill
      = sanitizeNumber item.lastRefill now (some 0) (some now) := rfl

theorem sanitizeItemCore_tokens (dR dI dM : ℚ) (fR : Bool) (item : RawItem) (now : ℚ) :
    (sanitizeItemCore dR dI dM fR item now).tokens
      = sanitizeNumber item.tokens (sanitizeItemCore dR dI dM fR item now).maxTokens
          (some 0) (some (sanitizeItemCore dR dI dM fR item now).maxTokens) := rfl

theorem sanitizeItemCore_currentTime (dR dI dM : ℚ) (fR : Bool) (item : RawItem) (now : ℚ) :
    (sanitizeItemCore dR dI dM fR item now).currentTime = now := rfl

theorem sanitizeItemCore_timeDelta (dR dI dM : ℚ) (fR : Bool) (item : RawItem) (now : ℚ) :
    (sanitizeItemCore dR dI dM fR item now).timeDelta
      = max 0 (now - (sanitizeItemCore dR dI dM fR item now).lastRefill) := rfl

theorem sanitizeItemCore_refillAmount (dR dI dM : ℚ) (fR : Bool) (item : RawItem) (now : ℚ) :
    (sanitizeItemCore dR dI dM fR item now).refillAmount
      = (if fR then
          ((⌊(sanitizeItemCore dR dI dM fR item now).refillRate
              * (sanitizeItemCore dR dI dM fR item now).timeDelta
              / ((sanitizeItemCore dR dI dM fR item now).refillInterval * 1000)⌋ : ℤ) : ℚ)
        else
          (sanitizeItemCore dR dI dM fR item now).refillRate
            * (sanitizeItemCore dR dI dM fR item now).timeDelta
            / ((sanitizeItemCore dR dI dM fR item now).refillInterval * 1000)) := rfl

theorem sanitizeItemCore_potentialTokens (dR dI dM : ℚ) (fR : Bool) (item : RawItem) (now : ℚ) :
    (sanitizeItemCore dR dI dM fR item now).potentialTokens
      = (sanitizeItemCore dR dI dM fR item now).tokens
          + (sanitizeItemCore dR dI dM fR item now).refillAmount := rfl

theorem sanitizeItemCore_cappedTokens (dR dI dM : ℚ) (fR : Bool) (item : RawItem) (now : ℚ) :
    (sanitizeItemCore dR dI dM fR item now).cappedTokens
      = min ((sanitizeItemCore dR dI dM fR item now).potentialTokens)
          ((sanitizeItemCore dR dI dM fR item now).maxTokens) := rfl

theorem sanitizeItemCore_cappedTokensFloored (dR dI dM : ℚ) (fR : Bool) (item : RawItem) (now : ℚ) :
    (sanitizeItemCore dR dI dM fR item now).cappedTokensFloored
      = ((⌊(sanitizeItemCore dR dI dM fR item now).cappedTokens⌋ : ℤ) : ℚ) := rfl

/-! Bounds established by sanitizeNumber. -/

theorem sanitizeNumber_le_max (v : Option ℚ) (d : ℚ) (mn : Option ℚ) (M : ℚ)
    (hd : d ≤ M) : sanitizeNumber v d mn (some M) ≤ M := by
  unfold sanitizeNumber
  cases v with
  | none => exact hd
  | some n =>
    cases mn with
    | none => dsimp only; split <;> simp_all [le_of_lt, le_of_not_lt]
    | some m => dsimp only; split <;> split <;> simp_all [le_of_lt, le_of_not_lt]

theorem sanitizeNumber_ge_min (v : Option ℚ) (d m : ℚ) (mx : Option ℚ)
    (hd : m ≤ d) (hmx : ∀ M, mx = some M → m ≤ M) :
    m ≤ sanitizeNumber v d (some m) mx := by
  unfold sanitizeNumber
  cases v with
  | none => exact hd
  | some n =>
    cases mx with
    | none => dsimp only; split <;> simp_all [le_of_lt, le_of_not_lt]
    | some M =>
      have hM : m ≤ M := hmx M rfl
      dsimp only; split <;> split <;> simp_all [le_of_lt, le_of_not_lt]

theorem sanitizeNumber_fix (x d m M : ℚ) (h1 : m ≤ x) (h2 : x ≤ M) :
    sanitizeNumber (some x) d (some m) (some M) = x := by
  unfold sanitizeNumber
  simp [not_lt.mpr h1, not_lt.mpr h2]

theorem sanitizeNumber_fix_noMax (x d m : ℚ) (h1 : m ≤ x) :
    sanitizeNumber (some x) d (some m) none = x := by
  unfold sanitizeNumber
  simp [not_lt.mpr h1]

/-! Bounds established by sanitizeItemCore on the five persistent fields. -/

theorem sanitizeItemCore_maxTokens_bounds (dR dI dM : ℚ) (fR : Bool) (item : RawItem)
    (now : ℚ) (h1 : 1 ≤ dM) (h2 : dM ≤ 2500) :
    1 ≤ (sanitizeItemCore dR dI dM fR item now).maxTokens ∧
      (sanitizeItemCore dR dI dM fR item now).maxTokens ≤ 2500 := by
  rw [sanitizeItemCore_maxTokens]
  exact ⟨sanitizeNumber_ge_min _ _ _ _ h1 (by intro M hM; cases hM; norm_num),
    sanitizeNumber_le_max _ _ _ _ h2⟩

theorem sanitizeItemCore_refillRate_bounds (dR dI dM : ℚ) (fR : Bool) (item : RawItem)
    (now : ℚ) (h1 : 1 ≤ dR) (h2 : dR ≤ 2500) :
    1 ≤ (sanitizeItemCore dR dI dM fR item now).refillRate ∧
      (sanitizeItemCore dR dI dM fR item now).refillRate ≤ 2500 := by
  rw [sanitizeItemCore_refillRate]
  exact ⟨sanitizeNumber_ge_min _ _ _ _ h1 (by intro M hM; cases hM; norm_num),
    sanitizeNumber_le_max _ _ _ _ h2⟩

theorem sanitizeItemCore_refillInterval_ge (dR dI dM : ℚ) (fR : Bool) (item : RawItem)
    (now : ℚ) (h1 : 1 ≤ dI) :
    1 ≤ (sanitizeItemCore dR dI dM fR item now).refillInterval := by
  rw [sanitizeItemCore_refillInterval]
  exact sanitizeNumber_ge_min _ _ _ _ h1 (by intro M hM; cases hM)

theorem sanitizeItemCore_lastRefill_bounds (dR dI dM : ℚ) (fR : Bool) (item : RawItem)
    (now : ℚ) (hnow : 0 ≤ now) :
    0 ≤ (sanitizeItemCore dR dI dM fR item now).lastRefill ∧
      (sanitizeItemCore dR dI dM fR item now).lastRefill ≤ now := by
  rw [sanitizeItemCore_lastRefill]
  exact ⟨sanitizeNumber_ge_min _ _ _ _ hnow (by intro M hM; cases hM; exact hnow),
    sanitizeNumber_le_max _ _ _ _ le_rfl⟩

theorem sanitizeItemCore_tokens_bounds (dR dI dM : ℚ) (fR : Bool) (item : RawItem)
    (now : ℚ) (h1 : 1 ≤ dM) (h2 : dM ≤ 2500) :
    0 ≤ (sanitizeItemCore dR dI dM fR item now).tokens ∧
      (sanitizeItemCore dR dI dM fR item now).tokens
        ≤ (sanitizeItemCore dR dI dM fR item now).maxTokens := by
  have hM := (sanitizeItemCore_maxTokens_bounds dR dI dM fR item now h1 h2).1
  rw [sanitizeItemCore_tokens]
  constructor
  · exact sanitizeNumber_ge_min _ _ _ _ (by linarith)
      (by intro M hM2; cases hM2; linarith)
  · exact sanitizeNumber_le_max _ _ _ _ le_rfl

/-! Facts about computeReset. -/

theorem computeReset_eq_claim (M rem i r : ℚ) :
    computeReset M rem i r
      = if M ≤ rem then 0 else ((⌈(M - rem) * i / r⌉ : ℤ) : ℚ) := by
  unfold computeReset
  rcases lt_or_le rem M with h | h
  · rw [if_pos h, if_neg (not_le.mpr h)]
  · rw [if_neg (not_lt.mpr h), if_pos h]

theorem computeReset_pos (M rem i r : ℚ) (hi : 0 < i) (hr : 0 < r)
    (h : rem < M) : 1 ≤ computeReset M rem i r := by
  unfold computeReset
  rw [if_pos h]
  have hx : 0 < (M - rem) * i / r := div_pos (mul_pos (by linarith) hi) hr
  have : 1 ≤ ⌈(M - rem) * i / r⌉ := Int.ceil_pos.mpr hx
  exact_mod_cast this

theorem computeReset_eq_zero_iff (M rem i r : ℚ) (hi : 0 < i) (hr : 0 < r) :
    computeReset M rem i r = 0 ↔ M ≤ rem := by
  constructor
  · intro h0
    by_contra hc
    push_neg at hc
    have := computeReset_pos M rem i r hi hr hc
    rw [h0] at this
    norm_num at this
  · intro h
    rw [computeReset_eq_claim, if_pos h]

/-! Case analyses of the three limiters. -/

theorem atomic_ok_cases (g : GetOutcome) (u : UpdateOutcome) (now : ℚ)
    (d : Decision) (call : Option UpdateCall)
    (h : atomicApplyRateLimit g u now = .ok (d, call)) :
    ∃ raw, getItem g = .ok raw ∧
      ((¬ 1 ≤ (sanitizeItemAtomic raw now).cappedTokensFloored ∧
         d = atomicBaseDecision (sanitizeItemAtomic raw now) ∧ call = none) ∨
       (1 ≤ (sanitizeItemAtomic raw now).cappedTokensFloored ∧ u = .ok ∧
         d = { atomicAllowedDecision (sanitizeItemAtomic raw now) with allowed := true } ∧
         call = some (atomicUpdateCall (sanitizeItemAtomic raw now))) ∨
       (1 ≤ (sanitizeItemAtomic raw now).cappedTokensFloored ∧
         u = .conditionalCheckFailed ∧
         d = { atomicAllowedDecision (sanitizeItemAtomic raw now) with
                 allowed := false, collision := true } ∧
         call = some (atomicUpdateCall (sanitizeItemAtomic raw now)))) := by
  unfold atomicApplyRateLimit at h
  cases hg : getItem g with
  | error e => rw [hg] at h; exact absurd h (by simp)
  | ok raw =>
    rw [hg] at h
    dsimp only at h
    refine ⟨raw, rfl, ?_⟩
    by_cases hall : (1 : ℚ) ≤ (sanitizeItemAtomic raw now).cappedTokensFloored
    · rw [if_pos (by simp [atomicBaseDecision, hall])] at h
      cases u with
      | ok =>
        rw [Except.ok.injEq, Prod.mk.injEq] at h
        exact Or.inr (Or.inl ⟨hall, rfl, h.1.symm, h.2.symm⟩)
      | conditionalCheckFailed =>
        rw [Except.ok.injEq, Prod.mk.injEq] at h
        exact Or.inr (Or.inr ⟨hall, rfl, h.1.symm, h.2.symm⟩)
      | transportError => exact absurd h (by simp)
    · rw [if_neg (by simp [atomicBaseDecision, hall])] at h
      rw [Except.ok.injEq, Prod.mk.injEq] at h
      exact Or.inl ⟨hall, h.1.symm, h.2.symm⟩

theorem v1_ok_cases (cache : Option CachedItem) (g : GetOutcome) (now : ℚ)
    (d : Decision) (c1 : CachedItem) (call : Option UpdateCall)
    (h : v1ApplyRateLimit cache g now = .ok (d, c1, call)) :
    ∃ c, v1Resolve cache g now = .ok c ∧
      ((¬ 1 ≤ ((⌊v1Capped c now⌋ : ℤ) : ℚ) ∧
         d = hybridBaseDecision c ((⌊v1Capped c now⌋ : ℤ) : ℚ) ∧ c1 = c ∧ call = none) ∨
       (1 ≤ ((⌊v1Capped c now⌋ : ℤ) : ℚ) ∧
         d = v1AllowedDecision c now ∧
         c1 = { c with tokens := ((⌊v1Capped c now⌋ : ℤ) : ℚ) - 1,
                       lastRefill := now, lastAccess := now } ∧
         call = some (v1UpdateCall c now))) := by
  unfold v1ApplyRateLimit at h
  cases hr : v1Resolve cache g now with
  | error e => rw [hr] at h; exact absurd h (by simp)
  | ok c =>
    rw [hr] at h
    dsimp only at h
    refine ⟨c, rfl, ?_⟩
    by_cases hall : (1 : ℚ) ≤ ((⌊v1Capped c now⌋ : ℤ) : ℚ)
    · rw [if_pos (by simp [hybridBaseDecision, hall])] at h
      rw [Except.ok.injEq, Prod.mk.injEq, Prod.mk.injEq] at h
      exact Or.inr ⟨hall, h.1.symm, h.2.1.symm, h.2.2.symm⟩
    · rw [if_neg (by simp [hybridBaseDecision, hall])] at h
      rw [Except.ok.injEq, Prod.mk.injEq, Prod.mk.injEq] at h
      exact Or.inl ⟨hall, h.1.symm, h.2.1.symm, h.2.2.symm⟩

theorem SanitizedItem.ext_base (s t : SanitizedItem)
    (h1 : s.tokens = t.tokens) (h2 : s.lastRefill = t.lastRefill)
    (h3 : s.refillRate = t.refillRate) (h4 : s.refillInterval = t.refillInterval)
    (h5 : s.maxTokens = t.maxTokens) (h6 : s.currentTime = t.currentTime)
    (h7 : s.timeDelta = t.timeDelta) (h8 : s.refillAmount = t.refillAmount)
    (h9 : s.potentialTokens = t.potentialTokens)
    (h10 : s.cappedTokens = t.cappedTokens)
    (h11 : s.cappedTokensFloored = t.cappedTokensFloored) : s = t := by
  cases s; cases t; simp_all

/-- Re-sanitising the persisted fields of a sanitized bucket at the same time
is the identity: the base fields are fixed points of the clamping and the
derived fields are recomputed from them. -/
theorem sanitizeItemCore_idem (dR dI dM : ℚ) (fR : Bool) (item : RawItem) (now : ℚ)
    (hdR1 : 1 ≤ dR) (hdR2 : dR ≤ 2500) (hdI : 1 ≤ dI) (hdM1 : 1 ≤ dM)
    (hdM2 : dM ≤ 2500) (hnow : 0 ≤ now) :
    sanitizeItemCore dR dI dM fR (sanitizeItemCore dR dI dM fR item now).toRaw now
      = sanitizeItemCore dR dI dM fR item now := by
  set s := sanitizeItemCore dR dI dM fR item now with hs
  have hmaxb := sanitizeItemCore_maxTokens_bounds dR dI dM fR item now hdM1 hdM2
  have hrb := sanitizeItemCore_refillRate_bounds dR dI dM fR item now hdR1 hdR2
  have hib := sanitizeItemCore_refillInterval_ge dR dI dM fR item now hdI
  have hlb := sanitizeItemCore_lastRefill_bounds dR dI dM fR item now hnow
  have htb := sanitizeItemCore_tokens_bounds dR dI dM fR item now hdM1 hdM2
  have hmax : (sanitizeItemCore dR dI dM fR s.toRaw now).maxTokens = s.maxTokens := by
    rw [sanitizeItemCore_maxTokens, SanitizedItem.toRaw]
    exact sanitizeNumber_fix _ _ _ _ hmaxb.1 hmaxb.2
  have hrate : (sanitizeItemCore dR dI dM fR s.toRaw now).refillRate = s.refillRate := by
    rw [sanitizeItemCore_refillRate, SanitizedItem.toRaw]
    exact sanitizeNumber_fix _ _ _ _ hrb.1 hrb.2
  have hint : (sanitizeItemCore dR dI dM fR s.toRaw now).refillInterval = s.refillInterval := by
    rw [sanitizeItemCore_refillInterval, SanitizedItem.toRaw]
    exact sanitizeNumber_fix_noMax _ _ _ hib
  have hlast : (sanitizeItemCore dR dI dM fR s.toRaw now).lastRefill = s.lastRefill := by
    rw [sanitizeItemCore_lastRefill, SanitizedItem.toRaw]
    exact sanitizeNumber_fix _ _ _ _ hlb.1 hlb.2
  have htok : (sanitizeItemCore dR dI dM fR s.toRaw now).tokens = s.tokens := by
    rw [sanitizeItemCore_tokens, hmax, SanitizedItem.toRaw]
    exact sanitizeNumber_fix _ _ _ _ htb.1 htb.2
  have hdelta : (sanitizeItemCore dR dI dM fR s.toRaw now).timeDelta = s.timeDelta := by
    rw [sanitizeItemCore_timeDelta, hlast, hs, sanitizeItemCore_timeDelta]
  have hrefill : (sanitizeItemCore dR dI dM fR s.toRaw now).refillAmount = s.refillAmount := by
    rw [sanitizeItemCore_refillAmount, hrate, hint, hdelta, hs, sanitizeItemCore_refillAmount]
  have hpot : (sanitizeItemCore dR dI dM fR s.toRaw now).potentialTokens = s.potentialTokens := by
    rw [sanitizeItemCore_potentialTokens, htok, hrefill, hs, sanitizeItemCore_potentialTokens]
  have hcap : (sanitizeItemCore dR dI dM fR s.toRaw now).cappedTokens = s.cappedTokens := by
    rw [sanitizeItemCore_cappedTokens, hpot, hmax, hs, sanitizeItemCore_cappedTokens]
  refine SanitizedItem.ext_base _ _ htok hlast hrate hint hmax ?_ hdelta hrefill hpot hcap ?_
  · rw [sanitizeItemCore_currentTime, hs, sanitizeItemCore_currentTime]
  · rw [sanitizeItemCore_cappedTokensFloored, hcap, hs, sanitizeItemCore_cappedTokensFloored]

/-- C9: Sanitization is total (sanitizeItemV2 is a total function by
construction) and on any raw item, at any nonnegative clock value, its outputs
satisfy 1 ≤ refillRate ≤ hardMaxRefillRate (2500), 1 ≤ maxTokens ≤
hardMaxTokens (2500), refillInterval ≥ 1, 0 ≤ lastRefill ≤ currentTime and
0 ≤ tokens ≤ maxTokens; moreover sanitizing an already-sanitized bucket at the
same clock value yields the same result. -/
theorem claim_C9 (item : RawItem) (now : ℚ) (hnow : 0 ≤ now) :
    (1 ≤ (sanitizeItemV2 item now).refillRate
        ∧ (sanitizeItemV2 item now).refillRate ≤ 2500) ∧
    (1 ≤ (sanitizeItemV2 item now).maxTokens
        ∧ (sanitizeItemV2 item now).maxTokens ≤ 2500) ∧
    1 ≤ (sanitizeItemV2 item now).refillInterval ∧
    (0 ≤ (sanitizeItemV2 item now).lastRefill
        ∧ (sanitizeItemV2 item now).lastRefill ≤ (sanitizeItemV2 item now).currentTime) ∧
    (0 ≤ (sanitizeItemV2 item now).tokens
        ∧ (sanitizeItemV2 item now).tokens ≤ (sanitizeItemV2 item now).maxTokens) ∧
    sanitizeItemV2 (sanitizeItemV2 item now).toRaw now = sanitizeItemV2 item now := by
  unfold sanitizeItemV2
  rw [sanitizeItemCore_currentTime]
  exact ⟨sanitizeItemCore_refillRate_bounds _ _ _ _ _ _ (by norm_num) (by norm_num),
    sanitizeItemCore_maxTokens_bounds _ _ _ _ _ _ (by norm_num) (by norm_num),
    sanitizeItemCore_refillInterval_ge _ _ _ _ _ _ (by norm_num),
    sanitizeItemCore_lastRefill_bounds _ _ _ _ _ _ hnow,
    sanitizeItemCore_tokens_bounds _ _ _ _ _ _ (by norm_num) (by norm_num),
    sanitizeItemCore_idem _ _ _ _ _ _ (by norm_num) (by norm_num) (by norm_num)
      (by norm_num) (by norm_num) hnow⟩

/-- Witness for C9 at a concrete input: the empty item at time 1000. -/
theorem claim_C9_witness :
    (0 : ℚ) ≤ 1000 ∧ 1 ≤ (sanitizeItemV2 RawItem.empty 1000).refillRate :=
  ⟨by norm_num, (claim_C9 RawItem.empty 1000 (by norm_num)).1.1⟩

/-! Components of v2Sync. -/

theorem v2Sync_call (c : CachedItem) (isC : Bool) (now2 : ℚ) (u : UpdateOutcome)
    (g2 : GetOutcome) :
    (v2Sync c isC now2 u g2).2.2 =
      (let capped2 := min (c.tokens + c.refillRate * (max 0 (now2 - c.lastRefill))
          / (c.refillInterval * 1000)) c.maxTokens
       let isC2 := decide (1 ≤ capped2) && isC
       { newTokens := if isC2 then capped2 - 1 else capped2, currentTime := now2,
         refillRate := c.refillRate, refillInterval := c.refillInterval,
         maxTokens := c.maxTokens,
         cond := some (if isC2 then CondExpr.v2Consume capped2 c.lastRefill
                       else CondExpr.v2Deny c.tokens c.lastRefill) }) := by
  cases u <;> first
    | rfl
    | (cases g2 <;> rfl)

theorem v2Sync_collision (c : CachedItem) (isC : Bool) (now2 : ℚ)
    (u : UpdateOutcome) (g2 : GetOutcome) :
    (v2Sync c isC now2 u g2).2.1 = decide (u = .conditionalCheckFailed) := by
  cases u <;> first
    | rfl
    | (cases g2 <;> rfl)

theorem v2Sync_cache_cases (c : CachedItem) (isC : Bool) (now2 : ℚ)
    (u : UpdateOutcome) (g2 : GetOutcome) :
    (v2Sync c isC now2 u g2).1 = c ∨
      ∃ r : Option RawItem,
        (v2Sync c isC now2 u g2).1
          = toCachedItem (sanitizeItemV2 (r.getD RawItem.empty) now2) now2 := by
  cases u with
  | ok => exact Or.inl rfl
  | transportError => exact Or.inl rfl
  | conditionalCheckFailed =>
    cases g2 with
    | ok r => exact Or.inr ⟨r, rfl⟩
    | resourceNotFound b => exact Or.inl rfl
    | transportError => exact Or.inl rfl

/-! Case analysis of the hybrid cache resolve and of v2ApplyRateLimit. -/

theorem hybridResolve_ok_cases (san : RawItem → ℚ → SanitizedItem)
    (cache : Option CachedItem) (g : GetOutcome) (now : ℚ) (c : CachedItem)
    (h : hybridResolve san cache g now = .ok c) :
    (∃ c0, cache = some c0 ∧ ¬ 1000 < now - c0.lastAccess ∧ c = c0) ∨
      (∃ raw, getItem g = .ok raw ∧ c = toCachedItem (san raw now) now) := by
  unfold hybridResolve at h
  cases cache with
  | none =>
    cases hg : getItem g with
    | error e => rw [hg] at h; exact absurd h (by simp [Except.map])
    | ok raw =>
      rw [hg] at h
      simp only [Except.map, Except.ok.injEq] at h
      exact Or.inr ⟨raw, rfl, h.symm⟩
  | some c0 =>
    dsimp only at h
    by_cases hst : 1000 < now - c0.lastAccess
    · rw [if_pos hst] at h
      cases hg : getItem g with
      | error e => rw [hg] at h; exact absurd h (by simp [Except.map])
      | ok raw =>
        rw [hg] at h
        simp only [Except.map, Except.ok.injEq] at h
        exact Or.inr ⟨raw, rfl, h.symm⟩
    · rw [if_neg hst] at h
      rw [Except.ok.injEq] at h
      exact Or.inl ⟨c0, rfl, hst, h.symm⟩

theorem v2_ok_cases (cache : Option CachedItem) (g1 : GetOutcome)
    (now now2 : ℚ) (u : UpdateOutcome) (g2 : GetOutcome)
    (d : Decision) (c1 : CachedItem) (call : Option UpdateCall)
    (h : v2ApplyRateLimit cache g1 now now2 u g2 = .ok (d, c1, call)) :
    ∃ c, v2Resolve cache g1 now = .ok c ∧
      ((¬ 1 ≤ ((⌊v2Capped c now⌋ : ℤ) : ℚ) ∧ ¬ 0 < hybridTimeDelta c now ∧
         d = hybridBaseDecision c ((⌊v2Capped c now⌋ : ℤ) : ℚ) ∧ c1 = c ∧ call = none) ∨
       (¬ 1 ≤ ((⌊v2Capped c now⌋ : ℤ) : ℚ) ∧ 0 < hybridTimeDelta c now ∧
         d = { hybridBaseDecision c ((⌊v2Capped c now⌋ : ℤ) : ℚ) with
                 collision := (v2Sync c false now2 u g2).2.1 } ∧
         c1 = (v2Sync c false now2 u g2).1 ∧
         call = some (v2Sync c false now2 u g2).2.2) ∨
       (1 ≤ ((⌊v2Capped c now⌋ : ℤ) : ℚ) ∧
         d = { v2ConsumedDecision c now with
                 collision := (v2Sync (v2ConsumedCache c now) true now2 u g2).2.1 } ∧
         c1 = (v2Sync (v2ConsumedCache c now) true now2 u g2).1 ∧
         call = some (v2Sync (v2ConsumedCache c now) true now2 u g2).2.2)) := by
  unfold v2ApplyRateLimit at h
  cases hr : v2Resolve cache g1 now with
  | error e => rw [hr] at h; exact absurd h (by simp)
  | ok c =>
    rw [hr] at h
    dsimp only at h
    refine ⟨c, rfl, ?_⟩
    by_cases hall : (1 : ℚ) ≤ ((⌊v2Capped c now⌋ : ℤ) : ℚ)
    · rw [show v2Decide c now
          = (v2ConsumedDecision c now, v2ConsumedCache c now, true) from by
        unfold v2Decide; rw [if_pos (by simp [hybridBaseDecision, hall])]] at h
      dsimp only at h
      rw [Bool.or_true, if_pos rfl] at h
      rw [Except.ok.injEq, Prod.mk.injEq, Prod.mk.injEq] at h
      exact Or.inr (Or.inr ⟨hall, h.1.symm, h.2.1.symm, h.2.2.symm⟩)
    · rw [show v2Decide c now = (hybridBaseDecision c ((⌊v2Capped c now⌋ : ℤ) : ℚ), c, false) from by
        unfold v2Decide; rw [if_neg (by simp [hybridBaseDecision, hall])]] at h
      dsimp only at h
      by_cases htd : 0 < hybridTimeDelta c now
      · rw [show (decide (0 < hybridTimeDelta c now) || false) = true by simp [htd]] at h
        rw [if_pos rfl] at h
        rw [Except.ok.injEq, Prod.mk.injEq, Prod.mk.injEq] at h
        exact Or.inr (Or.inl ⟨hall, htd, h.1.symm, h.2.1.symm, h.2.2.symm⟩)
      · rw [show (decide (0 < hybridTimeDelta c now) || false) = false by simp [htd]] at h
        simp only [Bool.false_eq_true, if_false] at h
        rw [Except.ok.injEq, Prod.mk.injEq, Prod.mk.injEq] at h
        exact Or.inl ⟨hall, htd, h.1.symm, h.2.1.symm, h.2.2.symm⟩

/-! Well-formedness transfer. -/

theorem toCachedItem_sanitizeItemCore_WF (dR dI dM : ℚ) (fR : Bool)
    (item : RawItem) (now la : ℚ) (hdR1 : 1 ≤ dR) (hdR2 : dR ≤ 2500)
    (hdI : 1 ≤ dI) (hdM1 : 1 ≤ dM) (hdM2 : dM ≤ 2500) :
    (toCachedItem (sanitizeItemCore dR dI dM fR item now) la).WF := by
  have h1 := sanitizeItemCore_refillRate_bounds dR dI dM fR item now hdR1 hdR2
  have h2 := sanitizeItemCore_refillInterval_ge dR dI dM fR item now hdI
  have h3 := sanitizeItemCore_maxTokens_bounds dR dI dM fR item now hdM1 hdM2
  have h4 := sanitizeItemCore_tokens_bounds dR dI dM fR item now hdM1 hdM2
  exact ⟨h1.1, h1.2, h2, h3.1, h3.2, h4.1, h4.2⟩

theorem v1Resolve_WF (cache : Option CachedItem) (g : GetOutcome) (now : ℚ)
    (c : CachedItem) (hc : ∀ c0 ∈ cache, c0.WF)
    (h : v1Resolve cache g now = .ok c) : c.WF := by
  rcases hybridResolve_ok_cases _ _ _ _ _ h with ⟨c0, hc0, _, hceq⟩ | ⟨raw, _, hceq⟩
  · cases hceq; exact hc _ hc0
  · cases hceq
    exact toCachedItem_sanitizeItemCore_WF 300 60 500 true raw now now
      (by norm_num) (by norm_num) (by norm_num) (by norm_num) (by norm_num)

theorem v2Resolve_WF (cache : Option CachedItem) (g : GetOutcome) (now : ℚ)
    (c : CachedItem) (hc : ∀ c0 ∈ cache, c0.WF)
    (h : v2Resolve cache g now = .ok c) : c.WF := by
  rcases hybridResolve_ok_cases _ _ _ _ _ h with ⟨c0, hc0, _, hceq⟩ | ⟨raw, _, hceq⟩
  · cases hceq; exact hc _ hc0
  · cases hceq
    exact toCachedItem_sanitizeItemCore_WF 300 60 500 false raw now now
      (by norm_num) (by norm_num) (by norm_num) (by norm_num) (by norm_num)

/-! Shape of the returned decisions: the limit field is the bucket maxTokens
and the reset field is computeReset applied to the reported remaining. -/

theorem atomic_decision_shape (g : GetOutcome) (u : UpdateOutcome) (now : ℚ)
    (d : Decision) (call : Option UpdateCall)
    (h : atomicApplyRateLimit g u now = .ok (d, call)) :
    ∃ raw, getItem g = .ok raw ∧
      d.rateLimitLimit = (sanitizeItemAtomic raw now).maxTokens ∧
      d.rateLimitReset = computeReset (sanitizeItemAtomic raw now).maxTokens
        d.rateLimitRemaining (sanitizeItemAtomic raw now).refillInterval
        (sanitizeItemAtomic raw now).refillRate := by
  rcases atomic_ok_cases g u now d call h with
    ⟨raw, hraw, ⟨_, hd, _⟩ | ⟨_, _, hd, _⟩ | ⟨_, _, hd, _⟩⟩ <;>
    exact ⟨raw, hraw, by subst hd; rfl, by subst hd; rfl⟩

theorem v1_decision_shape (cache : Option CachedItem) (g : GetOutcome) (now : ℚ)
    (d : Decision) (c1 : CachedItem) (call : Option UpdateCall)
    (h : v1ApplyRateLimit cache g now = .ok (d, c1, call)) :
    ∃ c, v1Resolve cache g now = .ok c ∧
      d.rateLimitLimit = c.maxTokens ∧
      d.rateLimitReset = computeReset c.maxTokens d.rateLimitRemaining
        c.refillInterval c.refillRate := by
  rcases v1_ok_cases cache g now d c1 call h with
    ⟨c, hres, ⟨_, hd, _, _⟩ | ⟨_, hd, _, _⟩⟩ <;>
    exact ⟨c, hres, by subst hd; rfl, by subst hd; rfl⟩

theorem v2_decision_shape (cache : Option CachedItem) (g1 : GetOutcome)
    (now now2 : ℚ) (u : UpdateOutcome) (g2 : GetOutcome)
    (d : Decision) (c1 : CachedItem) (call : Option UpdateCall)
    (h : v2ApplyRateLimit cache g1 now now2 u g2 = .ok (d, c1, call)) :
    ∃ c, v2Resolve cache g1 now = .ok c ∧
      d.rateLimitLimit = c.maxTokens ∧
      d.rateLimitReset = computeReset c.maxTokens d.rateLimitRemaining
        c.refillInterval c.refillRate := by
  rcases v2_ok_cases cache g1 now now2 u g2 d c1 call h with
    ⟨c, hres, ⟨_, _, hd, _, _⟩ | ⟨_, _, hd, _, _⟩ | ⟨_, hd, _, _⟩⟩ <;>
    exact ⟨c, hres, by subst hd; rfl, by subst hd; rfl⟩

theorem reset_spec_of_computeReset (M rem i r reset : ℚ) (hi : 0 < i)
    (hr : 0 < r) (hreset : reset = computeReset M rem i r) :
    (reset = 0 ↔ M ≤ rem) ∧
      reset = (if M ≤ rem then 0 else ((⌈(M - rem) * i / r⌉ : ℤ) : ℚ)) := by
  subst hreset
  exact ⟨computeReset_eq_zero_iff M rem i r hi hr, computeReset_eq_claim M rem i r⟩

/-- C7: in all three limiters, every returned decision satisfies
rateLimitReset = 0 iff rateLimitRemaining ≥ maxTokens (= rateLimitLimit), and
otherwise rateLimitReset = ceil((maxTokens - rateLimitRemaining) *
refillInterval / refillRate) seconds, where refillInterval and refillRate are
the bucket values the decision was computed from.  For the hybrid limiters the
cache entries are assumed well-formed (which sanitization establishes, claim
C9). -/
theorem claim_C7 :
    (∀ g u now d call, atomicApplyRateLimit g u now = .ok (d, call) →
      (d.rateLimitReset = 0 ↔ d.rateLimitLimit ≤ d.rateLimitRemaining) ∧
      ∃ raw, getItem g = .ok raw ∧
        d.rateLimitReset = (if d.rateLimitLimit ≤ d.rateLimitRemaining then 0
          else ((⌈(d.rateLimitLimit - d.rateLimitRemaining)
            * (sanitizeItemAtomic raw now).refillInterval
            / (sanitizeItemAtomic raw now).refillRate⌉ : ℤ) : ℚ))) ∧
    (∀ cache g now d c1 call, (∀ c0 ∈ cache, c0.WF) →
      v1ApplyRateLimit cache g now = .ok (d, c1, call) →
      (d.rateLimitReset = 0 ↔ d.rateLimitLimit ≤ d.rateLimitRemaining) ∧
      ∃ c, v1Resolve cache g now = .ok c ∧
        d.rateLimitReset = (if d.rateLimitLimit ≤ d.rateLimitRemaining then 0
          else ((⌈(d.rateLimitLimit - d.rateLimitRemaining)
            * c.refillInterval / c.refillRate⌉ : ℤ) : ℚ))) ∧
    (∀ cache g1 now now2 u g2 d c1 call, (∀ c0 ∈ cache, c0.WF) →
      v2ApplyRateLimit cache g1 now now2 u g2 = .ok (d, c1, call) →
      (d.rateLimitReset = 0 ↔ d.rateLimitLimit ≤ d.rateLimitRemaining) ∧
      ∃ c, v2Resolve cache g1 now = .ok c ∧
        d.rateLimitReset = (if d.rateLimitLimit ≤ d.rateLimitRemaining then 0
          else ((⌈(d.rateLimitLimit - d.rateLimitRemaining)
            * c.refillInterval / c.refillRate⌉ : ℤ) : ℚ))) := by
  refine ⟨?_, ?_, ?_⟩
  · intro g u now d call h
    obtain ⟨raw, hraw, hlim, hreset⟩ := atomic_decision_shape g u now d call h
    have hi : (0 : ℚ) < (sanitizeItemAtomic raw now).refillInterval := by
      have := sanitizeItemCore_refillInterval_ge 750 60 750 true raw now (by norm_num)
      unfold sanitizeItemAtomic; linarith
    have hr : (0 : ℚ) < (sanitizeItemAtomic raw now).refillRate := by
      have := (sanitizeItemCore_refillRate_bounds 750 60 750 true raw now
        (by norm_num) (by norm_num)).1
      unfold sanitizeItemAtomic; linarith
    obtain ⟨h1, h2⟩ := reset_spec_of_computeReset _ _ _ _ _ hi hr (hlim ▸ hreset)
    exact ⟨h1, raw, hraw, h2⟩
  · intro cache g now d c1 call hWF h
    obtain ⟨c, hres, hlim, hreset⟩ := v1_decision_shape cache g now d c1 call h
    obtain ⟨h1r, _, h1i, _⟩ := v1Resolve_WF cache g now c hWF hres
    obtain ⟨h1, h2⟩ := reset_spec_of_computeReset _ _ _ _ _ (by linarith)
      (by linarith) (hlim ▸ hreset)
    exact ⟨h1, c, hres, h2⟩
  · intro cache g1 now now2 u g2 d c1 call hWF h
    obtain ⟨c, hres, hlim, hreset⟩ := v2_decision_shape cache g1 now now2 u g2 d c1 call h
    obtain ⟨h1r, _, h1i, _⟩ := v2Resolve_WF cache g1 now c hWF hres
    obtain ⟨h1, h2⟩ := reset_spec_of_computeReset _ _ _ _ _ (by linarith)
      (by linarith) (hlim ▸ hreset)
    exact ⟨h1, c, hres, h2⟩

/-- Witness for C7 at a concrete input: the fully-atomic limiter on a new
client at time 1000. -/
theorem claim_C7_witness :
    atomicApplyRateLimit (.ok none) .ok 1000 = .ok
      ({ allowed := true, rateLimitRemaining := 749, rateLimitLimit := 750,
         rateLimitReset := 1, collision := false },
       some { newTokens := 749, currentTime := 1000, refillRate := 750,
              refillInterval := 60, maxTokens := 750,
              cond := some (.lastRefillEq 1000) }) ∧
    (((1 : ℚ) = 0) ↔ (750 : ℚ) ≤ 749) := by
  have hev : atomicApplyRateLimit (.ok none) .ok 1000 = .ok
      ({ allowed := true, rateLimitRemaining := 749, rateLimitLimit := 750,
         rateLimitReset := 1, collision := false },
       some { newTokens := 749, currentTime := 1000, refillRate := 750,
              refillInterval := 60, maxTokens := 750,
              cond := some (.lastRefillEq 1000) }) := by
    simp only [atomicApplyRateLimit, getItem, sanitizeItemAtomic, sanitizeItemCore,
      sanitizeNumber, RawItem.empty, atomicBaseDecision, atomicAllowedDecision,
      atomicUpdateCall, computeReset]
    norm_num [Int.ceil_eq_iff]
  have h := (claim_C7.1 (.ok none) .ok 1000 _ _ hev).1
  exact ⟨hev, by simpa using h⟩

theorem floor_sub_one_q (x : ℚ) : ((⌊x - 1⌋ : ℤ) : ℚ) = ((⌊x⌋ : ℤ) : ℚ) - 1 := by
  have h : ⌊x - (1 : ℤ)⌋ = ⌊x⌋ - 1 := Int.floor_sub_int x 1
  have h2 : x - ((1 : ℤ) : ℚ) = x - 1 := by push_cast; ring
  rw [h2] at h
  rw [h]
  push_cast
  ring

theorem one_le_cast_floor_iff (x : ℚ) :
    ((1 : ℚ) ≤ ((⌊x⌋ : ℤ) : ℚ)) ↔ 1 ≤ ⌊x⌋ := by exact_mod_cast Iff.rfl

/-- C1 counterexample: on the fully-atomic limiter, a call for a full new
bucket (750 tokens after refill, so floor(cappedTokens) = 750 ≥ 1) whose
conditional Update fails returns a decision with allowed = false - refuting
"allowed iff floor(cappedTokens after refill) ≥ 1 for every call in all three
limiters" - and with rateLimitRemaining = 749, the post-consumption count,
refuting "rateLimitRemaining is the pre-consumption floored count (750) when
denied". -/
theorem claim_C1_counterexample :
    atomicApplyRateLimit (.ok none) .conditionalCheckFailed 1000 = .ok
      ({ allowed := false, rateLimitRemaining := 749, rateLimitLimit := 750,
         rateLimitReset := 1, collision := true },
       some { newTokens := 749, currentTime := 1000, refillRate := 750,
              refillInterval := 60, maxTokens := 750,
              cond := some (.lastRefillEq 1000) }) ∧
    (sanitizeItemAtomic RawItem.empty 1000).cappedTokensFloored = 750 := by
  constructor
  · simp only [atomicApplyRateLimit, getItem, sanitizeItemAtomic, sanitizeItemCore,
      sanitizeNumber, RawItem.empty, atomicBaseDecision, atomicAllowedDecision,
      atomicUpdateCall, computeReset]
    norm_num [Int.ceil_eq_iff]
  · simp only [sanitizeItemAtomic, sanitizeItemCore, sanitizeNumber, RawItem.empty]
    norm_num

/-- C1 amended: in hybrid V1 and V2 every returned decision has allowed iff
floor(cappedTokens after refill) ≥ 1, rateLimitRemaining =
floor(cappedTokens - 1) when allowed and floor(cappedTokens) when denied.  In
the fully-atomic limiter the same holds for every non-collision decision; a
collision decision instead has allowed = false with floor(cappedTokens) ≥ 1
and rateLimitRemaining = floor(cappedTokens - 1), the post-consumption
count. -/
theorem claim_C1 :
    (∀ cache g now d c1 call, v1ApplyRateLimit cache g now = .ok (d, c1, call) →
      ∃ c, v1Resolve cache g now = .ok c ∧
        (d.allowed = true ↔ 1 ≤ ⌊v1Capped c now⌋) ∧
        (d.allowed = true → d.rateLimitRemaining = ((⌊v1Capped c now - 1⌋ : ℤ) : ℚ)) ∧
        (d.allowed = false → d.rateLimitRemaining = ((⌊v1Capped c now⌋ : ℤ) : ℚ))) ∧
    (∀ cache g1 now now2 u g2 d c1 call,
      v2ApplyRateLimit cache g1 now now2 u g2 = .ok (d, c1, call) →
      ∃ c, v2Resolve cache g1 now = .ok c ∧
        (d.allowed = true ↔ 1 ≤ ⌊v2Capped c now⌋) ∧
        (d.allowed = true → d.rateLimitRemaining = ((⌊v2Capped c now - 1⌋ : ℤ) : ℚ)) ∧
        (d.allowed = false → d.rateLimitRemaining = ((⌊v2Capped c now⌋ : ℤ) : ℚ))) ∧
    (∀ g u now d call raw, getItem g = .ok raw →
      atomicApplyRateLimit g u now = .ok (d, call) →
      (d.collision = false →
        ((d.allowed = true ↔ 1 ≤ ⌊(sanitizeItemAtomic raw now).cappedTokens⌋) ∧
         (d.allowed = true → d.rateLimitRemaining
            = ((⌊(sanitizeItemAtomic raw now).cappedTokens - 1⌋ : ℤ) : ℚ)) ∧
         (d.allowed = false → d.rateLimitRemaining
            = ((⌊(sanitizeItemAtomic raw now).cappedTokens⌋ : ℤ) : ℚ)))) ∧
      (d.collision = true →
        (d.allowed = false ∧ 1 ≤ ⌊(sanitizeItemAtomic raw now).cappedTokens⌋ ∧
         d.rateLimitRemaining
            = ((⌊(sanitizeItemAtomic raw now).cappedTokens - 1⌋ : ℤ) : ℚ)))) := by
  refine ⟨?_, ?_, ?_⟩
  · intro cache g now d c1 call h
    rcases v1_ok_cases cache g now d c1 call h with
      ⟨c, hres, ⟨hall, hd, _, _⟩ | ⟨hall, hd, _, _⟩⟩
    · subst hd
      rw [one_le_cast_floor_iff] at hall
      refine ⟨c, hres, ?_, ?_, ?_⟩
      · simp only [hybridBaseDecision, decide_eq_true_eq, one_le_cast_floor_iff]
      · intro htrue
        exfalso
        simp only [hybridBaseDecision, decide_eq_true_eq, one_le_cast_floor_iff] at htrue
        exact hall htrue
      · intro _; rfl
    · subst hd
      rw [one_le_cast_floor_iff] at hall
      refine ⟨c, hres, ?_, ?_, ?_⟩
      · simpa [v1AllowedDecision] using hall
      · intro _
        simp only [v1AllowedDecision, floor_sub_one_q]
      · intro hfalse
        exfalso
        simp [v1AllowedDecision] at hfalse
  · intro cache g1 now now2 u g2 d c1 call h
    rcases v2_ok_cases cache g1 now now2 u g2 d c1 call h with
      ⟨c, hres, ⟨hall, _, hd, _, _⟩ | ⟨hall, _, hd, _, _⟩ | ⟨hall, hd, _, _⟩⟩
    · subst hd
      rw [one_le_cast_floor_iff] at hall
      refine ⟨c, hres, ?_, ?_, ?_⟩
      · simp only [hybridBaseDecision, decide_eq_true_eq, one_le_cast_floor_iff]
      · intro htrue
        exfalso
        simp only [hybridBaseDecision, decide_eq_true_eq, one_le_cast_floor_iff] at htrue
        exact hall htrue
      · intro _; rfl
    · subst hd
      rw [one_le_cast_floor_iff] at hall
      refine ⟨c, hres, ?_, ?_, ?_⟩
      · simp only [hybridBaseDecision, decide_eq_true_eq, one_le_cast_floor_iff]
      · intro htrue
        exfalso
        simp only [hybridBaseDecision, decide_eq_true_eq, one_le_cast_floor_iff] at htrue
        exact hall htrue
      · intro _; rfl
    · subst hd
      rw [one_le_cast_floor_iff] at hall
      refine ⟨c, hres, ?_, ?_, ?_⟩
      · simp only [v2ConsumedDecision, hybridBaseDecision, decide_eq_true_eq,
          one_le_cast_floor_iff]
      · intro _
        simp only [v2ConsumedDecision, hybridBaseDecision]
      · intro hfalse
        exfalso
        have hge : (1 : ℚ) ≤ ((⌊v2Capped c now⌋ : ℤ) : ℚ) := (one_le_cast_floor_iff _).mpr hall
        simp only [v2ConsumedDecision, hybridBaseDecision, decide_eq_false_iff_not] at hfalse
        exact hfalse hge
  · intro g u now d call raw hraw h
    rcases atomic_ok_cases g u now d call h with
      ⟨raw2, hraw2, hcases⟩
    rw [hraw] at hraw2
    rw [Except.ok.injEq] at hraw2
    subst hraw2
    rcases hcases with ⟨hall, hd, _⟩ | ⟨hall, _, hd, _⟩ | ⟨hall, _, hd, _⟩
    · subst hd
      refine ⟨fun _ => ?_, fun hcol => ?_⟩
      · rw [show (sanitizeItemAtomic raw now).cappedTokensFloored
            = ((⌊(sanitizeItemAtomic raw now).cappedTokens⌋ : ℤ) : ℚ) from rfl,
          one_le_cast_floor_iff] at hall
        refine ⟨?_, ?_, ?_⟩
        · simp only [atomicBaseDecision, decide_eq_true_eq,
            sanitizeItemCore_cappedTokensFloored, sanitizeItemAtomic] at *
          constructor
          · intro hc; exact (one_le_cast_floor_iff _).mp hc
          · intro hc; exact (one_le_cast_floor_iff _).mpr hc
        · intro htrue
          exfalso
          simp only [atomicBaseDecision, decide_eq_true_eq] at htrue
          rw [show (sanitizeItemAtomic raw now).cappedTokensFloored
              = ((⌊(sanitizeItemAtomic raw now).cappedTokens⌋ : ℤ) : ℚ) from rfl,
            one_le_cast_floor_iff] at htrue
          exact hall htrue
        · intro _
          exact rfl
      · exfalso
        simp [atomicBaseDecision] at hcol
    · subst hd
      rw [show (sanitizeItemAtomic raw now).cappedTokensFloored
          = ((⌊(sanitizeItemAtomic raw now).cappedTokens⌋ : ℤ) : ℚ) from rfl,
        one_le_cast_floor_iff] at hall
      refine ⟨fun _ => ?_, fun hcol => ?_⟩
      · refine ⟨by simpa using hall, ?_, ?_⟩
        · intro _
          show (sanitizeItemAtomic raw now).cappedTokensFloored - 1 = _
          rw [floor_sub_one_q]
          rfl
        · intro hfalse
          exact absurd hfalse (by simp)
      · exfalso
        simp only [atomicAllowedDecision, atomicBaseDecision] at hcol
        exact absurd hcol (by simp)
    · subst hd
      rw [show (sanitizeItemAtomic raw now).cappedTokensFloored
          = ((⌊(sanitizeItemAtomic raw now).cappedTokens⌋ : ℤ) : ℚ) from rfl,
        one_le_cast_floor_iff] at hall
      refine ⟨fun hcol => ?_, fun _ => ?_⟩
      · exact absurd hcol (by simp)
      · refine ⟨rfl, hall, ?_⟩
        show (sanitizeItemAtomic raw now).cappedTokensFloored - 1 = _
        rw [floor_sub_one_q]
        rfl

/-- Witness for C1 at a concrete input: hybrid V1 on a new client at time
1000 (full bucket of 500, request allowed, remaining 499). -/
theorem claim_C1_witness :
    ∃ c, v1Resolve none (.ok none) 1000 = .ok c ∧
      ((true : Bool) = true ↔ 1 ≤ ⌊v1Capped c 1000⌋) ∧
      ((true : Bool) = true → (499 : ℚ) = ((⌊v1Capped c 1000 - 1⌋ : ℤ) : ℚ)) ∧
      ((true : Bool) = false → (499 : ℚ) = ((⌊v1Capped c 1000⌋ : ℤ) : ℚ)) :=
  claim_C1.1 none (.ok none) 1000
    { allowed := true, rateLimitRemaining := 499, rateLimitLimit := 500,
      rateLimitReset := 1, collision := false }
    { tokens := 499, lastRefill := 1000, refillRate := 300,
      refillInterval := 60, maxTokens := 500, lastAccess := 1000 }
    (some { newTokens := 499, currentTime := 1000, refillRate := 300,
            refillInterval := 60, maxTokens := 500, cond := none })
    (by
      simp only [v1ApplyRateLimit, v1Resolve, hybridResolve, getItem,
        sanitizeItemV1, sanitizeItemCore, sanitizeNumber, RawItem.empty,
        toCachedItem, hybridBaseDecision, v1AllowedDecision, v1UpdateCall,
        v1Capped, v1RefillAmount, hybridTimeDelta, computeReset, Except.map]
      norm_num [Int.ceil_eq_iff])

/-- C2 counterexample: fully-atomic limiter, stored bucket with 10 tokens and
no elapsed refill, conditional Update fails.  The returned decision has
allowed = false and collision = true as claimed, but rateLimitRemaining = 9,
the post-consumption count, whereas the pre-consumption floored count is 10
(last conjunct) - refuting "rateLimitRemaining equal to the pre-consumption
floored token count". -/
theorem claim_C2_counterexample :
    atomicApplyRateLimit
      (.ok (some
        { tokens := some 10, lastRefill := some 1000, refillRate := some 750,
          refillInterval := some 60, maxTokens := some 750 }))
      .conditionalCheckFailed 1000 = .ok
      ({ allowed := false, rateLimitRemaining := 9, rateLimitLimit := 750,
         rateLimitReset := 60, collision := true },
       some { newTokens := 9, currentTime := 1000, refillRate := 750,
              refillInterval := 60, maxTokens := 750,
              cond := some (.lastRefillEq 1000) }) ∧
    (sanitizeItemAtomic
      { tokens := some 10, lastRefill := some 1000, refillRate := some 750,
        refillInterval := some 60, maxTokens := some 750 } 1000).cappedTokensFloored
      = 10 := by
  constructor
  · simp only [atomicApplyRateLimit, getItem, sanitizeItemAtomic, sanitizeItemCore,
      sanitizeNumber, atomicBaseDecision, atomicAllowedDecision,
      atomicUpdateCall, computeReset]
    norm_num [Int.ceil_eq_iff]
    rw [show ((60 : ℚ)) = ((60 : ℤ) : ℚ) by norm_num, Int.cast_inj, Int.ceil_eq_iff]
    norm_num
  · simp only [sanitizeItemAtomic, sanitizeItemCore, sanitizeNumber]
    norm_num

/-- C2 amended: for the fully-atomic limiter, whenever the local decision
would consume a token and the conditional Update fails its condition,
applyRateLimit returns (does not throw) a decision with allowed = false,
collision = true, and rateLimitRemaining equal to the post-consumption floored
token count, floor(cappedTokens) - 1. -/
theorem claim_C2 (g : GetOutcome) (now : ℚ) (raw : RawItem)
    (hraw : getItem g = .ok raw)
    (hall : 1 ≤ (sanitizeItemAtomic raw now).cappedTokensFloored) :
    ∃ d call, atomicApplyRateLimit g .conditionalCheckFailed now = .ok (d, some call) ∧
      d.allowed = false ∧ d.collision = true ∧
      d.rateLimitRemaining = (sanitizeItemAtomic raw now).cappedTokensFloored - 1 := by
  refine ⟨{ atomicAllowedDecision (sanitizeItemAtomic raw now) with
      allowed := false
      collision := true },
    atomicUpdateCall (sanitizeItemAtomic raw now), ?_, rfl, rfl, rfl⟩
  unfold atomicApplyRateLimit
  rw [hraw]
  dsimp only
  rw [if_pos (by simp [atomicBaseDecision, hall])]

/-- Witness for C2 at a concrete input: a new client at time 1000 whose
update collides. -/
theorem claim_C2_witness :
    ∃ d call, atomicApplyRateLimit (.ok none) .conditionalCheckFailed 1000
        = .ok (d, some call) ∧
      d.allowed = false ∧ d.collision = true ∧
      d.rateLimitRemaining
        = (sanitizeItemAtomic RawItem.empty 1000).cappedTokensFloored - 1 :=
  claim_C2 (.ok none) 1000 RawItem.empty rfl
    (by
      simp only [sanitizeItemAtomic, sanitizeItemCore, sanitizeNumber, RawItem.empty]
      norm_num)

/-- C3: evaluating all three limiters at a Get transport error (empty cache
for the hybrids, so the fetch runs).  All three propagate the error to the
caller: the hybrid limiters rethrow just like the fully-atomic one
(rateLimiterHybridMemoryDynamo.js 131-134, rateLimiterHybridMemoryDynamoV2.js
135-138), they do not return the fail-closed deny decision with
rateLimitLimit = defaultMaxTokens that the claim - and the repository's own
test "should deny request if initial GetItem fails" - describes. -/
theorem claim_C3 :
    v1ApplyRateLimit none .transportError 1000 = .error .getTransport ∧
    v2ApplyRateLimit none .transportError 1000 1000 .ok (.ok none)
      = .error .getTransport ∧
    atomicApplyRateLimit .transportError .ok 1000 = .error .getTransport :=
  ⟨rfl, rfl, rfl⟩

/-- C4 counterexample: hybrid V2 with a cached bucket of 10.5 tokens (stored
tokens may be fractional after earlier V2 writes) and no elapsed refill.  The
request is allowed, the cache drops to 9.5, and the background sync writes
newTokens = 17/2 = 8.5 to the store - a non-integer (last conjunct) - because
syncToDynamo persists cappedTokens - 1 without flooring
(rateLimiterHybridMemoryDynamoV2.js 215-217 and 233). -/
theorem claim_C4_counterexample :
    (v2ApplyRateLimit (some
      { tokens := 21/2, lastRefill := 1000, refillRate := 300,
        refillInterval := 60, maxTokens := 500, lastAccess := 1000 })
      (.ok none) 1000 1000 .ok (.ok none)) = .ok
      ({ allowed := true, rateLimitRemaining := 9, rateLimitLimit := 500,
         rateLimitReset := 99, collision := false },
       { tokens := 19/2, lastRefill := 1000, refillRate := 300,
         refillInterval := 60, maxTokens := 500, lastAccess := 1000 },
       some { newTokens := 17/2, currentTime := 1000, refillRate := 300,
              refillInterval := 60, maxTokens := 500,
              cond := some (.v2Consume (19/2) 1000) }) ∧
    ∀ k : ℤ, (k : ℚ) ≠ 17/2 := by
  constructor
  · simp only [v2ApplyRateLimit, v2Resolve, hybridResolve, getItem, v2Decide,
      v2ConsumedDecision, v2ConsumedCache, hybridBaseDecision, v2Capped,
      v2RefillAmount, hybridTimeDelta, v2Sync, computeReset, Except.map]
    norm_num [Int.floor_eq_iff, Int.ceil_eq_iff]
    rw [show ((99 : ℚ)) = ((99 : ℤ) : ℚ) by norm_num, Int.cast_inj, Int.ceil_eq_iff]
    norm_num
  · intro k hk
    have h2 : ((2 * k : ℤ) : ℚ) = 17 := by push_cast; rw [hk]; ring
    have h3 : (2 * k : ℤ) = 17 := by exact_mod_cast h2
    omega

/-- C4 amended: hybrid V1 and the fully-atomic limiter always write an
integer tokens value (the floored count minus one); hybrid V2's background
sync instead writes cappedTokens - 1 (or cappedTokens when not consuming)
without flooring, which can be fractional. -/
theorem claim_C4 :
    (∀ cache g now d c1 call, v1ApplyRateLimit cache g now = .ok (d, c1, some call) →
      ∃ k : ℤ, call.newTokens = (k : ℚ)) ∧
    (∀ g u now d call, atomicApplyRateLimit g u now = .ok (d, some call) →
      ∃ k : ℤ, call.newTokens = (k : ℚ)) := by
  constructor
  · intro cache g now d c1 call h
    rcases v1_ok_cases cache g now d c1 call h with
      ⟨c, _, ⟨_, _, _, hcall⟩ | ⟨_, _, _, hcall⟩⟩
    · exact absurd hcall (by simp)
    · rw [Option.some.injEq] at hcall
      subst hcall
      refine ⟨⌊v1Capped c now⌋ - 1, ?_⟩
      show ((⌊v1Capped c now⌋ : ℤ) : ℚ) - 1 = _
      push_cast
      ring
  · intro g u now d call h
    rcases atomic_ok_cases g u now d call h with
      ⟨raw, _, ⟨_, _, hcall⟩ | ⟨_, _, _, hcall⟩ | ⟨_, _, _, hcall⟩⟩
    · exact absurd hcall (by simp)
    all_goals
      rw [Option.some.injEq] at hcall
      subst hcall
      refine ⟨⌊(sanitizeItemAtomic raw now).cappedTokens⌋ - 1, ?_⟩
      show (sanitizeItemAtomic raw now).cappedTokensFloored - 1 = _
      rw [sanitizeItemAtomic, sanitizeItemCore_cappedTokensFloored]
      push_cast
      ring

/-- Witness for C4 at a concrete input: the V1 write for a new client at time
1000 persists 499, an integer. -/
theorem claim_C4_witness :
    ∃ k : ℤ,
      ({ newTokens := 499, currentTime := 1000, refillRate := 300,
         refillInterval := 60, maxTokens := 500, cond := none } : UpdateCall).newTokens
        = (k : ℚ) :=
  claim_C4.1 none (.ok none) 1000
    { allowed := true, rateLimitRemaining := 499, rateLimitLimit := 500,
      rateLimitReset := 1, collision := false }
    { tokens := 499, lastRefill := 1000, refillRate := 300,
      refillInterval := 60, maxTokens := 500, lastAccess := 1000 }
    { newTokens := 499, currentTime := 1000, refillRate := 300,
      refillInterval := 60, maxTokens := 500, cond := none }
    (by
      simp only [v1ApplyRateLimit, v1Resolve, hybridResolve, getItem,
        sanitizeItemV1, sanitizeItemCore, sanitizeNumber, RawItem.empty,
        toCachedItem, hybridBaseDecision, v1AllowedDecision, v1UpdateCall,
        v1Capped, v1RefillAmount, hybridTimeDelta, computeReset, Except.map]
      norm_num [Int.ceil_eq_iff])

/-- C5 counterexample: the V2 call for a new client returns a different
decision depending on the outcome of its conditional Update - collision =
false when the write succeeds, collision = true when its condition fails
(line 268 awaits syncToDynamo before applyRateLimit returns).  The returned
decision therefore does await the Update, refuting "V2 returns its decision
without awaiting the Update". -/
theorem claim_C5_counterexample :
    v2ApplyRateLimit none (.ok none) 1000 1000 .ok (.ok none) = .ok
      ({ allowed := true, rateLimitRemaining := 499, rateLimitLimit := 500,
         rateLimitReset := 1, collision := false },
       { tokens := 499, lastRefill := 1000, refillRate := 300,
         refillInterval := 60, maxTokens := 500, lastAccess := 1000 },
       some { newTokens := 498, currentTime := 1000, refillRate := 300,
              refillInterval := 60, maxTokens := 500,
              cond := some (.v2Consume 499 1000) }) ∧
    v2ApplyRateLimit none (.ok none) 1000 1000 .conditionalCheckFailed (.ok none) = .ok
      ({ allowed := true, rateLimitRemaining := 499, rateLimitLimit := 500,
         rateLimitReset := 1, collision := true },
       { tokens := 500, lastRefill := 1000, refillRate := 300,
         refillInterval := 60, maxTokens := 500, lastAccess := 1000 },
       some { newTokens := 498, currentTime := 1000, refillRate := 300,
              refillInterval := 60, maxTokens := 500,
              cond := some (.v2Consume 499 1000) }) ∧
    ({ allowed := true, rateLimitRemaining := 499, rateLimitLimit := 500,
       rateLimitReset := 1, collision := false } : Decision)
      ≠ { allowed := true, rateLimitRemaining := 499, rateLimitLimit := 500,
          rateLimitReset := 1, collision := true } := by
  refine ⟨?_, ?_, by simp⟩
  · simp only [v2ApplyRateLimit, v2Resolve, hybridResolve, getItem, v2Decide,
      v2ConsumedDecision, v2ConsumedCache, hybridBaseDecision, v2Capped,
      v2RefillAmount, hybridTimeDelta, v2Sync, computeReset, Except.map,
      sanitizeItemV2, sanitizeItemCore, sanitizeNumber, RawItem.empty, toCachedItem]
    norm_num [Int.floor_eq_iff, Int.ceil_eq_iff]
  · simp only [v2ApplyRateLimit, v2Resolve, hybridResolve, getItem, v2Decide,
      v2ConsumedDecision, v2ConsumedCache, hybridBaseDecision, v2Capped,
      v2RefillAmount, hybridTimeDelta, v2Sync, computeReset, Except.map,
      sanitizeItemV2, sanitizeItemCore, sanitizeNumber, RawItem.empty, toCachedItem]
    norm_num [Int.floor_eq_iff, Int.ceil_eq_iff]

/-- C5 amended: only hybrid V1 is fire-and-forget - its returned value is
independent of the outcome of its Update (the write outcome is only logged).
Hybrid V2 awaits its background sync and the fully-atomic limiter awaits its
Update: both return values depend on the update outcome at concrete inputs. -/
theorem claim_C5 :
    (∀ cache g now u u', v1ApplyRateLimitWithOutcome cache g now u
        = v1ApplyRateLimitWithOutcome cache g now u') ∧
    v2ApplyRateLimit none (.ok none) 1000 1000 .ok (.ok none)
      ≠ v2ApplyRateLimit none (.ok none) 1000 1000 .conditionalCheckFailed (.ok none) ∧
    atomicApplyRateLimit (.ok none) .ok 1000
      ≠ atomicApplyRateLimit (.ok none) .conditionalCheckFailed 1000 := by
  refine ⟨?_, ?_, ?_⟩
  · intro cache g now u u'
    cases u <;> cases u' <;> rfl
  · intro hc
    have h1 : (v2ApplyRateLimit none (.ok none) 1000 1000 .ok (.ok none)).toOption.map
        (fun p => p.1.collision) = some false := by
      simp only [v2ApplyRateLimit, v2Resolve, hybridResolve, getItem, v2Decide,
        v2ConsumedDecision, v2ConsumedCache, hybridBaseDecision, v2Capped,
        v2RefillAmount, hybridTimeDelta, v2Sync, computeReset, Except.map,
        sanitizeItemV2, sanitizeItemCore, sanitizeNumber, RawItem.empty, toCachedItem]
      norm_num [Int.floor_eq_iff, Except.toOption]
    have h2 : (v2ApplyRateLimit none (.ok none) 1000 1000
        .conditionalCheckFailed (.ok none)).toOption.map
        (fun p => p.1.collision) = some true := by
      simp only [v2ApplyRateLimit, v2Resolve, hybridResolve, getItem, v2Decide,
        v2ConsumedDecision, v2ConsumedCache, hybridBaseDecision, v2Capped,
        v2RefillAmount, hybridTimeDelta, v2Sync, computeReset, Except.map,
        sanitizeItemV2, sanitizeItemCore, sanitizeNumber, RawItem.empty, toCachedItem]
      norm_num [Int.floor_eq_iff, Except.toOption]
    rw [hc, h2] at h1
    exact absurd h1 (by simp)
  · intro hc
    have h1 : (atomicApplyRateLimit (.ok none) .ok 1000).toOption.map
        (fun p => p.1.collision) = some false := by
      simp only [atomicApplyRateLimit, getItem, sanitizeItemAtomic, sanitizeItemCore,
        sanitizeNumber, RawItem.empty, atomicBaseDecision, atomicAllowedDecision,
        atomicUpdateCall, computeReset]
      norm_num [Except.toOption]
    have h2 : (atomicApplyRateLimit (.ok none) .conditionalCheckFailed 1000).toOption.map
        (fun p => p.1.collision) = some true := by
      simp only [atomicApplyRateLimit, getItem, sanitizeItemAtomic, sanitizeItemCore,
        sanitizeNumber, RawItem.empty, atomicBaseDecision, atomicAllowedDecision,
        atomicUpdateCall, computeReset]
      norm_num [Except.toOption]
    rw [hc, h2] at h1
    exact absurd h1 (by simp)

/-- C6 counterexample: the conditional Update issued by V2's background sync
for a new client (snapshot lastRefill = 1000) carries the consume-path guard
"(tokens absent OR tokens >= 499) AND (lastRefill absent OR lastRefill <=
1000)", not the claimed guard.  On the stored item {tokens: 0, lastRefill:
1000} the claimed guard "lastRefill absent OR lastRefill = snapshot" holds,
but the guard the code issues evaluates to false - the two conditions are not
the same predicate. -/
theorem claim_C6_counterexample :
    v2ApplyRateLimit none (.ok none) 1000 1000 .ok (.ok none) = .ok
      ({ allowed := true, rateLimitRemaining := 499, rateLimitLimit := 500,
         rateLimitReset := 1, collision := false },
       { tokens := 499, lastRefill := 1000, refillRate := 300,
         refillInterval := 60, maxTokens := 500, lastAccess := 1000 },
       some { newTokens := 498, currentTime := 1000, refillRate := 300,
              refillInterval := 60, maxTokens := 500,
              cond := some (.v2Consume 499 1000) }) ∧
    CondExpr.eval (.v2Consume 499 1000)
      { tokens := some 0, lastRefill := some 1000, refillRate := none,
        refillInterval := none, maxTokens := none } = false ∧
    specClaimedGuard 1000
      { tokens := some 0, lastRefill := some 1000, refillRate := none,
        refillInterval := none, maxTokens := none } = true := by
  refine ⟨?_, ?_, ?_⟩
  · simp only [v2ApplyRateLimit, v2Resolve, hybridResolve, getItem, v2Decide,
      v2ConsumedDecision, v2ConsumedCache, hybridBaseDecision, v2Capped,
      v2RefillAmount, hybridTimeDelta, v2Sync, computeReset, Except.map,
      sanitizeItemV2, sanitizeItemCore, sanitizeNumber, RawItem.empty, toCachedItem]
    norm_num [Int.floor_eq_iff, Int.ceil_eq_iff]
  · simp [CondExpr.eval]
  · simp [specClaimedGuard]

/-- C6 amended: the fully-atomic limiter's conditional Update is guarded by
exactly "lastRefill is absent OR lastRefill = the sanitized lastRefill
observed by the preceding Get" (the embedded guard agrees with the claimed
guard on every stored item).  V2's background sync never issues that guard: it
recomputes cappedTokens at sync time from the cache entry it starts from
(already decremented and restamped with lastRefill = now when the request was
consumed, the resolved snapshot otherwise) and issues
- when the request consumed and the recomputed capped count is at least 1:
  "(tokens absent OR tokens >= recomputed cappedTokens) AND (lastRefill absent
  OR lastRefill <= entry lastRefill)" with exactly those bound values;
- otherwise: "(tokens absent OR tokens = entry tokens) AND (lastRefill absent
  OR lastRefill = entry lastRefill)". -/
theorem claim_C6 :
    (∀ g u now d call raw, getItem g = .ok raw →
      atomicApplyRateLimit g u now = .ok (d, some call) →
      call.cond = some (.lastRefillEq (sanitizeItemAtomic raw now).lastRefill) ∧
      ∀ st, CondExpr.eval (.lastRefillEq (sanitizeItemAtomic raw now).lastRefill) st
        = specClaimedGuard (sanitizeItemAtomic raw now).lastRefill st) ∧
    (∀ cache g1 now now2 u g2 d c1 call,
      v2ApplyRateLimit cache g1 now now2 u g2 = .ok (d, c1, some call) →
      ∃ c, v2Resolve cache g1 now = .ok c ∧
        ((d.allowed = true ∧ 1 ≤ v2Capped (v2ConsumedCache c now) now2 ∧
           call.cond = some (.v2Consume (v2Capped (v2ConsumedCache c now) now2)
             (v2ConsumedCache c now).lastRefill)) ∨
         (d.allowed = true ∧ v2Capped (v2ConsumedCache c now) now2 < 1 ∧
           call.cond = some (.v2Deny (v2ConsumedCache c now).tokens
             (v2ConsumedCache c now).lastRefill)) ∨
         (d.allowed = false ∧
           call.cond = some (.v2Deny c.tokens c.lastRefill)))) := by
  constructor
  · intro g u now d call raw hraw h
    rcases atomic_ok_cases g u now d call h with
      ⟨raw2, hraw2, ⟨_, _, hcall⟩ | ⟨_, _, _, hcall⟩ | ⟨_, _, _, hcall⟩⟩
    · exact absurd hcall (by simp)
    all_goals
      rw [hraw] at hraw2
      rw [Except.ok.injEq] at hraw2
      subst hraw2
      rw [Option.some.injEq] at hcall
      subst hcall
      exact ⟨rfl, fun st => rfl⟩
  · intro cache g1 now now2 u g2 d c1 call h
    rcases v2_ok_cases cache g1 now now2 u g2 d c1 call h with
      ⟨c, hres, ⟨_, _, _, _, hcall⟩ | ⟨hall, _, hd, _, hcall⟩ | ⟨hall, hd, _, hcall⟩⟩
    · exact absurd hcall (by simp)
    · rw [Option.some.injEq] at hcall
      subst hcall
      refine ⟨c, hres, Or.inr (Or.inr ⟨?_, ?_⟩)⟩
      · subst hd
        simp only [hybridBaseDecision]
        rw [decide_eq_false_iff_not]
        exact hall
      · rw [v2Sync_call]
        dsimp only
        rw [Bool.and_false]
        rfl
    · rw [Option.some.injEq] at hcall
      subst hcall
      have hallow : d.allowed = true := by
        subst hd
        simp only [v2ConsumedDecision, hybridBaseDecision]
        rw [decide_eq_true_eq]
        exact hall
      by_cases hcap : (1 : ℚ) ≤ v2Capped (v2ConsumedCache c now) now2
      · refine ⟨c, hres, Or.inl ⟨hallow, hcap, ?_⟩⟩
        rw [v2Sync_call]
        simp only [v2Capped, v2RefillAmount, hybridTimeDelta]
        rw [Bool.and_true]
        rw [if_pos]
        rw [decide_eq_true_eq]
        simp only [v2Capped, v2RefillAmount, hybridTimeDelta] at hcap
        exact hcap
      · refine ⟨c, hres, Or.inr (Or.inl ⟨hallow, not_le.mp hcap, ?_⟩)⟩
        rw [v2Sync_call]
        simp only [v2Capped, v2RefillAmount, hybridTimeDelta]
        rw [Bool.and_true]
        rw [if_neg]
        rw [decide_eq_true_eq]
        simp only [v2Capped, v2RefillAmount, hybridTimeDelta] at hcap
        exact hcap

/-- Witness for C6 at concrete inputs, exercising both conjuncts: the
fully-atomic limiter's update for a new client at time 1000 carries the guard
lastRefillEq 1000, and V2's sync for a new client at time 1000 (allowed,
cache decremented to 499 and restamped) issues the consume guard with the
recomputed capped count and the entry's lastRefill. -/
theorem claim_C6_witness :
    (({ newTokens := 749, currentTime := 1000, refillRate := 750,
        refillInterval := 60, maxTokens := 750,
        cond := some (.lastRefillEq 1000) } : UpdateCall).cond
        = some (.lastRefillEq (sanitizeItemAtomic RawItem.empty 1000).lastRefill) ∧
      ∀ st, CondExpr.eval
          (.lastRefillEq (sanitizeItemAtomic RawItem.empty 1000).lastRefill) st
        = specClaimedGuard (sanitizeItemAtomic RawItem.empty 1000).lastRefill st) ∧
    (∃ c, v2Resolve none (.ok none) 1000 = .ok c ∧
      (((true : Bool) = true ∧ 1 ≤ v2Capped (v2ConsumedCache c 1000) 1000 ∧
         (some (CondExpr.v2Consume 499 1000) : Option CondExpr)
           = some (.v2Consume (v2Capped (v2ConsumedCache c 1000) 1000)
               (v2ConsumedCache c 1000).lastRefill)) ∨
       ((true : Bool) = true ∧ v2Capped (v2ConsumedCache c 1000) 1000 < 1 ∧
         (some (CondExpr.v2Consume 499 1000) : Option CondExpr)
           = some (.v2Deny (v2ConsumedCache c 1000).tokens
               (v2ConsumedCache c 1000).lastRefill)) ∨
       ((true : Bool) = false ∧
         (some (CondExpr.v2Consume 499 1000) : Option CondExpr)
           = some (.v2Deny c.tokens c.lastRefill)))) :=
  ⟨claim_C6.1 (.ok none) .ok 1000
    { allowed := true, rateLimitRemaining := 749, rateLimitLimit := 750,
      rateLimitReset := 1, collision := false }
    { newTokens := 749, currentTime := 1000, refillRate := 750,
      refillInterval := 60, maxTokens := 750,
      cond := some (.lastRefillEq 1000) }
    RawItem.empty rfl
    (by
      simp only [atomicApplyRateLimit, getItem, sanitizeItemAtomic, sanitizeItemCore,
        sanitizeNumber, RawItem.empty, atomicBaseDecision, atomicAllowedDecision,
        atomicUpdateCall, computeReset]
      norm_num [Int.ceil_eq_iff]),
   claim_C6.2 none (.ok none) 1000 1000 .ok (.ok none)
    { allowed := true, rateLimitRemaining := 499, rateLimitLimit := 500,
      rateLimitReset := 1, collision := false }
    { tokens := 499, lastRefill := 1000, refillRate := 300,
      refillInterval := 60, maxTokens := 500, lastAccess := 1000 }
    { newTokens := 498, currentTime := 1000, refillRate := 300,
      refillInterval := 60, maxTokens := 500,
      cond := some (.v2Consume 499 1000) }
    (by
      simp only [v2ApplyRateLimit, v2Resolve, hybridResolve, getItem, v2Decide,
        v2ConsumedDecision, v2ConsumedCache, hybridBaseDecision, v2Capped,
        v2RefillAmount, hybridTimeDelta, v2Sync, computeReset, Except.map,
        sanitizeItemV2, sanitizeItemCore, sanitizeNumber, RawItem.empty, toCachedItem]
      norm_num [Int.floor_eq_iff, Int.ceil_eq_iff])⟩

/-- C8: on every denied V2 call (well-formed resolved cache entry), an Update
is issued to the store iff the refilled capped count strictly exceeds the
cached token value, i.e. iff there was a refill to persist; in particular no
write happens on a deny with no elapsed refill. -/
theorem claim_C8 (cache : Option CachedItem) (g1 : GetOutcome) (now now2 : ℚ)
    (u : UpdateOutcome) (g2 : GetOutcome) (d : Decision) (c1 : CachedItem)
    (call : Option UpdateCall) (c : CachedItem)
    (hres : v2Resolve cache g1 now = .ok c) (hWF : c.WF)
    (h : v2ApplyRateLimit cache g1 now now2 u g2 = .ok (d, c1, call))
    (hdeny : d.allowed = false) :
    (∃ uc, call = some uc) ↔ c.tokens < v2Capped c now := by
  obtain ⟨hr1, hr2, hi1, hm1, hm2, ht0, htm⟩ := hWF
  rcases v2_ok_cases cache g1 now now2 u g2 d c1 call h with
    ⟨c', hres', hcases⟩
  rw [hres] at hres'
  rw [Except.ok.injEq] at hres'
  subst hres'
  rcases hcases with ⟨hall, htd, hd, _, hcall⟩ | ⟨hall, htd, hd, _, hcall⟩ | ⟨hall, hd, _, _⟩
  · subst hcall
    have htd0 : hybridTimeDelta c now = 0 := by
      have hge : 0 ≤ hybridTimeDelta c now := le_max_left 0 _
      push_neg at htd
      linarith
    have hrf : v2RefillAmount c now = 0 := by
      unfold v2RefillAmount
      rw [htd0]
      ring_nf
    have hcap : v2Capped c now = c.tokens := by
      unfold v2Capped
      rw [hrf, add_zero]
      exact min_eq_left htm
    constructor
    · intro ⟨uc, huc⟩; exact absurd huc (by simp)
    · intro hlt; rw [hcap] at hlt; exact absurd hlt (lt_irrefl _)
  · subst hcall
    refine ⟨fun _ => ?_, fun _ => ⟨_, rfl⟩⟩
    have hcap1 : v2Capped c now < 1 := by
      rw [one_le_cast_floor_iff] at hall
      push_neg at hall
      have hfl : (⌊v2Capped c now⌋ : ℚ) ≤ 0 := by
        have : ⌊v2Capped c now⌋ ≤ 0 := by omega
        exact_mod_cast this
      have := Int.lt_floor_add_one (v2Capped c now)
      linarith
    have hrfpos : 0 < v2RefillAmount c now := by
      unfold v2RefillAmount
      apply div_pos
      · exact mul_pos (by linarith) htd
      · linarith
    have hpot : c.tokens + v2RefillAmount c now < c.maxTokens := by
      by_contra hge
      push_neg at hge
      have : v2Capped c now = c.maxTokens := min_eq_right hge
      rw [this] at hcap1
      linarith
    have hcap : v2Capped c now = c.tokens + v2RefillAmount c now :=
      min_eq_left (le_of_lt hpot)
    rw [hcap]
    linarith
  · exfalso
    subst hd
    rw [one_le_cast_floor_iff] at hall
    simp only [v2ConsumedDecision, hybridBaseDecision] at hdeny
    rw [decide_eq_false_iff_not, one_le_cast_floor_iff] at hdeny
    exact hdeny hall

/-- Witness for C8 at a concrete input: a denied call with a 1 ms refill
(cached 0.5 tokens, lastRefill 999, now 1000) triggers the sync, and indeed
cappedTokens = 101/200 exceeds the cached 1/2. -/
theorem claim_C8_witness :
    (∃ uc, (some
        { newTokens := 101/200, currentTime := 1000, refillRate := 300,
          refillInterval := 60, maxTokens := 500,
          cond := some (.v2Deny (1/2) 999) } : Option UpdateCall) = some uc) ↔
      (1/2 : ℚ) < v2Capped
        { tokens := 1/2, lastRefill := 999, refillRate := 300,
          refillInterval := 60, maxTokens := 500, lastAccess := 999 } 1000 :=
  claim_C8
    (some { tokens := 1/2, lastRefill := 999, refillRate := 300,
            refillInterval := 60, maxTokens := 500, lastAccess := 999 })
    (.ok none) 1000 1000 .ok (.ok none)
    { allowed := false, rateLimitRemaining := 0, rateLimitLimit := 500,
      rateLimitReset := 100, collision := false }
    { tokens := 1/2, lastRefill := 999, refillRate := 300,
      refillInterval := 60, maxTokens := 500, lastAccess := 999 }
    (some { newTokens := 101/200, currentTime := 1000, refillRate := 300,
            refillInterval := 60, maxTokens := 500,
            cond := some (.v2Deny (1/2) 999) })
    { tokens := 1/2, lastRefill := 999, refillRate := 300,
      refillInterval := 60, maxTokens := 500, lastAccess := 999 }
    (by
      simp only [v2Resolve, hybridResolve]
      norm_num)
    (by
      refine ⟨by norm_num, by norm_num, by norm_num, by norm_num, by norm_num,
        by norm_num, by norm_num⟩)
    (by
      simp only [v2ApplyRateLimit, v2Resolve, hybridResolve, getItem, v2Decide,
        v2ConsumedDecision, v2ConsumedCache, hybridBaseDecision, v2Capped,
        v2RefillAmount, hybridTimeDelta, v2Sync, computeReset, Except.map]
      norm_num [Int.floor_eq_iff, Int.ceil_eq_iff])
    rfl

theorem toCachedItem_sanitize_TokensInv (dR dI dM : ℚ) (fR : Bool)
    (item : RawItem) (now la : ℚ) (hdM1 : 1 ≤ dM) (hdM2 : dM ≤ 2500) :
    (toCachedItem (sanitizeItemCore dR dI dM fR item now) la).TokensInv := by
  have h := sanitizeItemCore_tokens_bounds dR dI dM fR item now hdM1 hdM2
  exact ⟨h.1, h.2⟩

theorem v1Resolve_TokensInv (cache : Option CachedItem) (g : GetOutcome)
    (now : ℚ) (c : CachedItem) (hc : ∀ c0 ∈ cache, c0.TokensInv)
    (h : v1Resolve cache g now = .ok c) : c.TokensInv := by
  rcases hybridResolve_ok_cases _ _ _ _ _ h with ⟨c0, hc0, _, hceq⟩ | ⟨raw, _, hceq⟩
  · cases hceq; exact hc _ hc0
  · cases hceq
    exact toCachedItem_sanitize_TokensInv 300 60 500 true raw now now
      (by norm_num) (by norm_num)

theorem v2Resolve_TokensInv (cache : Option CachedItem) (g : GetOutcome)
    (now : ℚ) (c : CachedItem) (hc : ∀ c0 ∈ cache, c0.TokensInv)
    (h : v2Resolve cache g now = .ok c) : c.TokensInv := by
  rcases hybridResolve_ok_cases _ _ _ _ _ h with ⟨c0, hc0, _, hceq⟩ | ⟨raw, _, hceq⟩
  · cases hceq; exact hc _ hc0
  · cases hceq
    exact toCachedItem_sanitize_TokensInv 300 60 500 false raw now now
      (by norm_num) (by norm_num)

/-- C10: both hybrid limiters preserve the memory-cache invariant
0 ≤ tokens ≤ maxTokens on every successful call: seeding sanitizes into
range, an allowed request writes cappedTokens - 1 (still in range because the
request was allowed and the cap holds), a denied request leaves the cached
tokens unchanged, and V2's collision refresh re-sanitizes the fetched item. -/
theorem claim_C10 :
    (∀ cache g now d c1 call, (∀ c0 ∈ cache, c0.TokensInv) →
      v1ApplyRateLimit cache g now = .ok (d, c1, call) → c1.TokensInv) ∧
    (∀ cache g1 now now2 u g2 d c1 call, (∀ c0 ∈ cache, c0.TokensInv) →
      v2ApplyRateLimit cache g1 now now2 u g2 = .ok (d, c1, call) →
      c1.TokensInv) := by
  constructor
  · intro cache g now d c1 call hcache h
    rcases v1_ok_cases cache g now d c1 call h with
      ⟨c, hres, ⟨_, _, hc1, _⟩ | ⟨hall, _, hc1, _⟩⟩
    · obtain hinv := v1Resolve_TokensInv cache g now c hcache hres
      subst hc1
      exact hinv
    · obtain ⟨h0, hm⟩ := v1Resolve_TokensInv cache g now c hcache hres
      subst hc1
      have hfl : ((⌊v1Capped c now⌋ : ℤ) : ℚ) ≤ v1Capped c now := Int.floor_le _
      have hcm : v1Capped c now ≤ c.maxTokens := min_le_right _ _
      constructor
      · show (0 : ℚ) ≤ ((⌊v1Capped c now⌋ : ℤ) : ℚ) - 1
        linarith
      · show ((⌊v1Capped c now⌋ : ℤ) : ℚ) - 1 ≤ c.maxTokens
        linarith
  · intro cache g1 now now2 u g2 d c1 call hcache h
    rcases v2_ok_cases cache g1 now now2 u g2 d c1 call h with
      ⟨c, hres, ⟨_, _, _, hc1, _⟩ | ⟨_, _, _, hc1, _⟩ | ⟨hall, _, hc1, _⟩⟩
    · obtain hinv := v2Resolve_TokensInv cache g1 now c hcache hres
      subst hc1
      exact hinv
    · obtain hinv := v2Resolve_TokensInv cache g1 now c hcache hres
      subst hc1
      rcases v2Sync_cache_cases c false now2 u g2 with hcc | ⟨r, hcc⟩
      · rw [hcc]; exact hinv
      · rw [hcc]
        exact toCachedItem_sanitize_TokensInv 300 60 500 false _ now2 now2
          (by norm_num) (by norm_num)
    · obtain ⟨h0, hm⟩ := v2Resolve_TokensInv cache g1 now c hcache hres
      subst hc1
      rcases v2Sync_cache_cases (v2ConsumedCache c now) true now2 u g2 with hcc | ⟨r, hcc⟩
      · rw [hcc]
        rw [one_le_cast_floor_iff] at hall
        have hfl : ((⌊v2Capped c now⌋ : ℤ) : ℚ) ≤ v2Capped c now := Int.floor_le _
        have h1c : (1 : ℚ) ≤ v2Capped c now := by
          have : (1 : ℚ) ≤ ((⌊v2Capped c now⌋ : ℤ) : ℚ) := by exact_mod_cast hall
          linarith
        have hcm : v2Capped c now ≤ c.maxTokens := min_le_right _ _
        constructor
        · show (0 : ℚ) ≤ v2Capped c now - 1
          linarith
        · show v2Capped c now - 1 ≤ c.maxTokens
          linarith
      · rw [hcc]
        exact toCachedItem_sanitize_TokensInv 300 60 500 false _ now2 now2
          (by norm_num) (by norm_num)

/-- Witness for C10 at a concrete input: the cache entry after a V1 call for
a new client (499 tokens of 500) satisfies the invariant. -/
theorem claim_C10_witness :
    ({ tokens := 499, lastRefill := 1000, refillRate := 300,
       refillInterval := 60, maxTokens := 500,
       lastAccess := 1000 } : CachedItem).TokensInv :=
  claim_C10.1 none (.ok none) 1000
    { allowed := true, rateLimitRemaining := 499, rateLimitLimit := 500,
      rateLimitReset := 1, collision := false }
    { tokens := 499, lastRefill := 1000, refillRate := 300,
      refillInterval := 60, maxTokens := 500, lastAccess := 1000 }
    (some { newTokens := 499, currentTime := 1000, refillRate := 300,
            refillInterval := 60, maxTokens := 500, cond := none })
    (by intro c0 hc0; exact absurd hc0 (by simp))
    (by
      simp only [v1ApplyRateLimit, v1Resolve, hybridResolve, getItem,
        sanitizeItemV1, sanitizeItemCore, sanitizeNumber, RawItem.empty,
        toCachedItem, hybridBaseDecision, v1AllowedDecision, v1UpdateCall,
        v1Capped, v1RefillAmount, hybridTimeDelta, computeReset, Except.map]
      norm_num [Int.ceil_eq_iff])

end TariffAuth
